import Mathlib

/-!
Verification of the sensor-multiplexing core (`firmware/src/sensors.c`).

The C module is embedded shallowly: machine integers become `Nat` (the
code never relies on wrap-around in the fragments modelled here, except
for handle allocation where the `% 2^32` of the 32-bit counter is made
explicit), the fixed-size static tables (`mSensors`, the slab-backed
client/sensor request matrix) become lists whose length is the capacity,
and driver dispatch (`sensorCallFuncPower` / `sensorCallFuncSetRate` /
...) is abstracted by an oracle giving each call's boolean outcome,
together with a trace of the calls that were issued.
-/

/-- `SENSOR_RATE_OFF` from sensors.c. -/
def SENSOR_RATE_OFF : Nat := 0x00000000

/-- `SENSOR_RATE_POWERING_ON` from sensors.c. -/
def SENSOR_RATE_POWERING_ON : Nat := 0xFFFFFFF0

/-- `SENSOR_RATE_POWERING_OFF` from sensors.c. -/
def SENSOR_RATE_POWERING_OFF : Nat := 0xFFFFFFF1

/-- `SENSOR_RATE_FW_UPLOADING` from sensors.c. -/
def SENSOR_RATE_FW_UPLOADING : Nat := 0xFFFFFFF2

/-- `SENSOR_RATE_IMPOSSIBLE` from sensors.c. -/
def SENSOR_RATE_IMPOSSIBLE : Nat := 0xFFFFFFF3

/-- `SENSOR_LATENCY_INVALID` from sensors.c. -/
def SENSOR_LATENCY_INVALID : Nat := 0xFFFFFFFFFFFFFFFF

/-- Modelled from the spec: the pseudo-rate `SENSOR_RATE_ONDEMAND` is
declared in `sensors.h`, which is not under `src/`; the spec only needs
it to be a distinct non-zero sentinel ("a request that implies I might
trigger samples manually").  The value is the conventional one. -/
def SENSOR_RATE_ONDEMAND : Nat := 0xFFFFFF00

/-- Modelled from the spec: the pseudo-rate `SENSOR_RATE_ONCHANGE` is
declared in `sensors.h`, which is not under `src/`; the spec only needs
it to be a distinct non-zero sentinel ("event-on-threshold-cross
sampling").  The value is the conventional one. -/
def SENSOR_RATE_ONCHANGE : Nat := 0xFFFFFF01

/-- `struct SensorInfo` (only the fields the core reads: the type tag
and the ascending zero-terminated supported-rate list; the list models
the array contents up to, and not including, the terminating 0). -/
structure SensorInfo where
  sensorType : Nat
  supportedRates : List Nat
deriving DecidableEq, Repr

/-- `struct Sensor` from sensors.c (the `callInfo` tagged pointer is
abstracted away: all driver calls go through the `Driver` oracle). -/
structure Sensor where
  si : SensorInfo
  handle : Nat
  currentLatency : Nat
  currentRate : Nat
deriving DecidableEq, Repr

/-- `struct SensorsClientRequest` from sensors.c. -/
structure SensorsClientRequest where
  handle : Nat
  clientId : Nat
  latency : Nat
  rate : Nat
deriving DecidableEq, Repr

/-- Outcome oracle for the driver binding: the boolean results the
`sensorCallFuncPower` / `sensorCallFuncSetRate` dispatchers would
return (direct vtable call or applet-event enqueue). -/
structure Driver where
  power : Bool → Bool
  setRate : Nat → Nat → Bool

/-- One driver-binding invocation, as recorded in a call trace. -/
inductive DriverCall where
  | power (turnOn : Bool)
  | setRate (rate latency : Nat)
  | fwUpld
  | flush
  | trigger
deriving DecidableEq, Repr

/-- The zeroed sensor slot: static C arrays are zero-initialised, so an
untouched `mSensors` entry has every field 0 (a null `si` is modelled as
the empty descriptor). -/
def zeroSensor : Sensor := ⟨⟨0, []⟩, 0, 0, 0⟩

/-- The globals of sensors.c that the claims are about: `mSensors`
(fixed capacity = list length), `mSensorsUsed` (the slot bitset),
`mCliSensMatrix` (the request pool; `none` is a free slab cell) and
`mNextSensorHandle`. -/
structure SensorsState where
  sensors : List Sensor
  used : List Bool
  pool : List (Option SensorsClientRequest)
  nextSensorHandle : Nat
deriving DecidableEq, Repr

/-- `sensorsInit` / the zero-initialised static state, with `n` sensor
slots and `m` request-pool cells. -/
def initialSensorsState (n m : Nat) : SensorsState :=
  ⟨List.replicate n zeroSensor, List.replicate n false, List.replicate m none, 0⟩

/-- `sensorFindByHandle`: linear scan of `mSensors`, first slot whose
`handle` field equals the argument (note: no special case for 0). -/
def sensorFindByHandle (sensors : List Sensor) (handle : Nat) : Option Sensor :=
  match sensors with
  | [] => none
  | s :: rest => if s.handle = handle then some s else sensorFindByHandle rest handle

/-- `sensorFindByHandle`, also returning the slot index (in C the
returned pointer doubles as the mutation target). -/
def sensorFindEntry (sensors : List Sensor) (handle : Nat) : Option (Nat × Sensor) :=
  match sensors with
  | [] => none
  | s :: rest =>
    if s.handle = handle then some (0, s)
    else (sensorFindEntry rest handle).map (fun p => (p.1 + 1, p.2))

/-- The loop body of `sensorReconfig` (sensors.c lines 194-225),
returning the updated slot and the driver calls issued. -/
def sensorReconfig (drv : Driver) (s : Sensor) (newHwRate newHwLatency : Nat) :
    Sensor × List DriverCall :=
  if s.currentRate = newHwRate ∧ s.currentLatency = newHwLatency then
    (s, [])
  else if s.currentRate = SENSOR_RATE_OFF then
    if drv.power true then
      ({ s with currentRate := SENSOR_RATE_POWERING_ON,
                currentLatency := SENSOR_LATENCY_INVALID }, [DriverCall.power true])
    else
      (s, [DriverCall.power true])
  else if s.currentRate = SENSOR_RATE_POWERING_OFF then
    ({ s with currentRate := SENSOR_RATE_POWERING_ON,
              currentLatency := SENSOR_LATENCY_INVALID }, [])
  else if s.currentRate = SENSOR_RATE_POWERING_ON ∨ s.currentRate = SENSOR_RATE_FW_UPLOADING then
    (s, [])
  else if SENSOR_RATE_OFF < newHwRate ∨ newHwLatency < SENSOR_LATENCY_INVALID then
    (s, [DriverCall.setRate newHwRate newHwLatency])
  else
    if drv.power false then
      ({ s with currentRate := SENSOR_RATE_POWERING_OFF,
                currentLatency := SENSOR_LATENCY_INVALID }, [DriverCall.power false])
    else
      (s, [DriverCall.power false])

/-- The loop of `sensorCalcHwLatency`: fold `min` of the latencies of
the live requests whose `handle` matches, starting from the current
smallest (`SENSOR_LATENCY_INVALID` at the top-level call). -/
def sensorCalcHwLatencyScan (h : Nat) (pool : List (Option SensorsClientRequest))
    (smallestLatency : Nat) : Nat :=
  match pool with
  | [] => smallestLatency
  | none :: rest => sensorCalcHwLatencyScan h rest smallestLatency
  | some req :: rest =>
    if req.handle ≠ h then sensorCalcHwLatencyScan h rest smallestLatency
    else sensorCalcHwLatencyScan h rest (min smallestLatency req.latency)

/-- `sensorCalcHwLatency` (sensors.c lines 227-244). -/
def sensorCalcHwLatency (pool : List (Option SensorsClientRequest)) (s : Sensor) : Nat :=
  sensorCalcHwLatencyScan s.handle pool SENSOR_LATENCY_INVALID

/-- The loop of `sensorCalcHwRate` (sensors.c lines 257-282): walk the
request pool carrying `haveUsers`, `haveOnChange`, `highestReq` and the
still-to-be-discarded `removedRate` exactly as the C loop does. -/
def sensorCalcHwRateScan (h : Nat) (pool : List (Option SensorsClientRequest))
    (haveUsers haveOnChange : Bool) (highestReq removedRate : Nat) : Bool × Bool × Nat :=
  match pool with
  | [] => (haveUsers, haveOnChange, highestReq)
  | none :: rest => sensorCalcHwRateScan h rest haveUsers haveOnChange highestReq removedRate
  | some req :: rest =>
    if req.handle ≠ h then
      sensorCalcHwRateScan h rest haveUsers haveOnChange highestReq removedRate
    else if req.rate = removedRate then
      sensorCalcHwRateScan h rest haveUsers haveOnChange highestReq SENSOR_RATE_OFF
    else if req.rate = SENSOR_RATE_ONDEMAND then
      sensorCalcHwRateScan h rest true haveOnChange highestReq removedRate
    else if req.rate = SENSOR_RATE_ONCHANGE then
      sensorCalcHwRateScan h rest true true highestReq removedRate
    else
      sensorCalcHwRateScan h rest true haveOnChange (max highestReq req.rate) removedRate

/-- The tail loop of `sensorCalcHwRate` (lines 293-295): first entry of
the zero-terminated `supportedRates` array that is `≥ highestReq`;
`SENSOR_RATE_IMPOSSIBLE` when the terminator is reached. -/
def sensorFirstSupportedRate (rates : List Nat) (highestReq : Nat) : Nat :=
  match rates with
  | [] => SENSOR_RATE_IMPOSSIBLE
  | r :: rest =>
    if r = 0 then SENSOR_RATE_IMPOSSIBLE
    else if highestReq ≤ r then r
    else sensorFirstSupportedRate rest highestReq

/-- `sensorCalcHwRate` (sensors.c lines 246-298). -/
def sensorCalcHwRate (pool : List (Option SensorsClientRequest)) (s : Sensor)
    (extraReqedRate removedRate : Nat) : Nat :=
  let haveUsers := extraReqedRate ≠ 0
  let haveOnChange := extraReqedRate = SENSOR_RATE_ONCHANGE
  let highestReq :=
    if extraReqedRate ≠ 0 then
      if extraReqedRate = SENSOR_RATE_ONDEMAND ∨ extraReqedRate = SENSOR_RATE_ONCHANGE then 0
      else extraReqedRate
    else 0
  match sensorCalcHwRateScan s.handle pool haveUsers haveOnChange highestReq removedRate with
  | (haveUsers, haveOnChange, highestReq) =>
    if highestReq = 0 then
      if haveUsers = false then SENSOR_RATE_OFF
      else if haveOnChange then SENSOR_RATE_ONCHANGE
      else SENSOR_RATE_ONDEMAND
    else sensorFirstSupportedRate s.si.supportedRates highestReq

/-- First free cell of the request pool.  Modelled from the spec: the
slab allocator itself is out of scope ("fixed-capacity pool", "alloc()
→ ptr|null", "getNth(i) → ptr|null"); allocation is modelled as taking
the first free cell, iteration (`slabAllocatorGetNth`) as walking the
list in index order. -/
def slabFirstFreeIdx (pool : List (Option SensorsClientRequest)) : Option Nat :=
  match pool with
  | [] => none
  | none :: _ => some 0
  | some _ :: rest => (slabFirstFreeIdx rest).map (· + 1)

/-- `sensorAddRequestor`: allocate a cell and fill it in; `none` when
the pool is exhausted. -/
def sensorAddRequestor (pool : List (Option SensorsClientRequest))
    (sensorHandle clientId rate latency : Nat) : Option (List (Option SensorsClientRequest)) :=
  (slabFirstFreeIdx pool).map
    (fun i => pool.set i (some ⟨sensorHandle, clientId, latency, rate⟩))

/-- First live request cell matching `(sensorHandle, clientId)`,
together with its index (the common loop of `sensorGetCurRequestorRate`,
`sensorAmendRequestor` and `sensorDeleteRequestor`). -/
def sensorFindRequestIdx (pool : List (Option SensorsClientRequest))
    (sensorHandle clientId : Nat) : Option (Nat × SensorsClientRequest) :=
  match pool with
  | [] => none
  | none :: rest =>
    (sensorFindRequestIdx rest sensorHandle clientId).map (fun p => (p.1 + 1, p.2))
  | some req :: rest =>
    if req.handle = sensorHandle ∧ req.clientId = clientId then some (0, req)
    else (sensorFindRequestIdx rest sensorHandle clientId).map (fun p => (p.1 + 1, p.2))

/-- `sensorGetCurRequestorRate` (returns the whole matching request;
the C function copies out its `rate` and `latency`). -/
def sensorGetCurRequestorRate (pool : List (Option SensorsClientRequest))
    (sensorHandle clientId : Nat) : Option SensorsClientRequest :=
  (sensorFindRequestIdx pool sensorHandle clientId).map (fun p => p.2)

/-- `sensorAmendRequestor`: in-place update of the matching request. -/
def sensorAmendRequestor (pool : List (Option SensorsClientRequest))
    (sensorHandle clientId newRate newLatency : Nat) :
    Option (List (Option SensorsClientRequest)) :=
  (sensorFindRequestIdx pool sensorHandle clientId).map
    (fun p => pool.set p.1 (some { p.2 with rate := newRate, latency := newLatency }))

/-- `sensorDeleteRequestor`: free the matching cell (the transient
`rate := OFF` store before the free is a publication-ordering detail;
the freed cell is `none`). -/
def sensorDeleteRequestor (pool : List (Option SensorsClientRequest))
    (sensorHandle clientId : Nat) : Option (List (Option SensorsClientRequest)) :=
  (sensorFindRequestIdx pool sensorHandle clientId).map (fun p => pool.set p.1 none)

/-- `sensorRequest` (sensors.c lines 471-491): resolve the handle,
precheck feasibility with the new rate as `extraReqedRate`, record the
request, reconfigure.  Returns the C boolean, the new global state and
the driver calls issued. -/
def sensorRequest (drv : Driver) (st : SensorsState)
    (clientId sensorHandle rate latency : Nat) :
    Bool × SensorsState × List DriverCall :=
  match sensorFindEntry st.sensors sensorHandle with
  | none => (false, st, [])
  | some (i, s) =>
    let newSensorRate := sensorCalcHwRate st.pool s rate 0
    if newSensorRate = SENSOR_RATE_IMPOSSIBLE then (false, st, [])
    else
      match sensorAddRequestor st.pool sensorHandle clientId rate latency with
      | none => (false, st, [])
      | some pool₁ =>
        let rc := sensorReconfig drv s newSensorRate (sensorCalcHwLatency pool₁ s)
        (true, { st with sensors := st.sensors.set i rc.1, pool := pool₁ }, rc.2)

/-- `sensorRequestRateChange` (sensors.c lines 493-519). -/
def sensorRequestRateChange (drv : Driver) (st : SensorsState)
    (clientId sensorHandle newRate newLatency : Nat) :
    Bool × SensorsState × List DriverCall :=
  match sensorFindEntry st.sensors sensorHandle with
  | none => (false, st, [])
  | some (i, s) =>
    match sensorGetCurRequestorRate st.pool sensorHandle clientId with
    | none => (false, st, [])
    | some oldReq =>
      let newSensorRate := sensorCalcHwRate st.pool s newRate oldReq.rate
      if newSensorRate = SENSOR_RATE_IMPOSSIBLE then (false, st, [])
      else
        match sensorAmendRequestor st.pool sensorHandle clientId newRate newLatency with
        | none => (false, st, [])
        | some pool₁ =>
          let rc := sensorReconfig drv s newSensorRate (sensorCalcHwLatency pool₁ s)
          (true, { st with sensors := st.sensors.set i rc.1, pool := pool₁ }, rc.2)

/-- `sensorRelease` (sensors.c lines 521-534). -/
def sensorRelease (drv : Driver) (st : SensorsState) (clientId sensorHandle : Nat) :
    Bool × SensorsState × List DriverCall :=
  match sensorFindEntry st.sensors sensorHandle with
  | none => (false, st, [])
  | some (i, s) =>
    match sensorDeleteRequestor st.pool sensorHandle clientId with
    | none => (false, st, [])
    | some pool₁ =>
      let rc := sensorReconfig drv s (sensorCalcHwRate pool₁ s 0 0) (sensorCalcHwLatency pool₁ s)
      (true, { st with sensors := st.sensors.set i rc.1, pool := pool₁ }, rc.2)

/-- `sensorGetCurRate` (sensors.c lines 565-570). -/
def sensorGetCurRate (st : SensorsState) (sensorHandle : Nat) : Nat :=
  match sensorFindByHandle st.sensors sensorHandle with
  | some s => s.currentRate
  | none => SENSOR_RATE_OFF

/-- `sensorGetCurLatency` (sensors.c lines 572-577). -/
def sensorGetCurLatency (st : SensorsState) (sensorHandle : Nat) : Nat :=
  match sensorFindByHandle st.sensors sensorHandle with
  | some s => s.currentLatency
  | none => SENSOR_LATENCY_INVALID

/-- `sensorInternalPowerStateChanged` (sensors.c lines 324-348);
`value1` is the event's `uint32_t` payload, tested against 0 like the C
boolean coercion. -/
def sensorInternalPowerStateChanged (drv : Driver) (st : SensorsState)
    (handle value1 : Nat) : SensorsState × List DriverCall :=
  match sensorFindEntry st.sensors handle with
  | none => (st, [])
  | some (i, s) =>
    if s.currentRate = SENSOR_RATE_POWERING_ON ∧ value1 ≠ 0 then
      let s₁ : Sensor := { s with currentRate := SENSOR_RATE_FW_UPLOADING,
                                  currentLatency := SENSOR_LATENCY_INVALID }
      ({ st with sensors := st.sensors.set i s₁ }, [DriverCall.fwUpld])
    else if s.currentRate = SENSOR_RATE_POWERING_OFF ∧ value1 = 0 then
      let s₁ : Sensor := { s with currentRate := SENSOR_RATE_OFF,
                                  currentLatency := SENSOR_LATENCY_INVALID }
      ({ st with sensors := st.sensors.set i s₁ }, [])
    else if s.currentRate = SENSOR_RATE_POWERING_ON ∧ value1 = 0 then
      (st, [DriverCall.power true])
    else if s.currentRate = SENSOR_RATE_POWERING_OFF ∧ value1 ≠ 0 then
      (st, [DriverCall.power false])
    else (st, [])

/-- `sensorInternalFwStateChanged` (sensors.c lines 300-322); `value1`
is the final rate (0 = upload failed), `value2` the final latency. -/
def sensorInternalFwStateChanged (drv : Driver) (st : SensorsState)
    (handle value1 value2 : Nat) : SensorsState × List DriverCall :=
  match sensorFindEntry st.sensors handle with
  | none => (st, [])
  | some (i, s) =>
    if value1 = 0 then
      let s₁ : Sensor := { s with currentRate := SENSOR_RATE_POWERING_OFF,
                                  currentLatency := SENSOR_LATENCY_INVALID }
      ({ st with sensors := st.sensors.set i s₁ }, [DriverCall.power false])
    else if s.currentRate = SENSOR_RATE_FW_UPLOADING then
      let s₁ : Sensor := { s with currentRate := value1, currentLatency := value2 }
      let rc := sensorReconfig drv s₁ (sensorCalcHwRate st.pool s₁ 0 0)
        (sensorCalcHwLatency st.pool s₁)
      ({ st with sensors := st.sensors.set i rc.1 }, rc.2)
    else if s.currentRate = SENSOR_RATE_POWERING_OFF then
      (st, [DriverCall.power false])
    else (st, [])

/-- `sensorInternalRateChanged` (sensors.c lines 350-360): the payload
is stored into the slot unconditionally. -/
def sensorInternalRateChanged (st : SensorsState) (handle value1 value2 : Nat) : SensorsState :=
  match sensorFindEntry st.sensors handle with
  | none => st
  | some (i, s) =>
    let s₁ : Sensor := { s with currentRate := value1, currentLatency := value2 }
    { st with sensors := st.sensors.set i s₁ }

/-- The handle-allocation loop of `sensorRegisterEx` (lines 94-96):
`handle = atomicAdd(&mNextSensorHandle, 1)` until the handle is non-zero
and unused.  The C `do/while` always terminates within `live handles +
2` iterations (consecutive 32-bit counter values are distinct, at most
one is 0 and at most one per live sensor collides); `fuel` makes that
bound explicit. -/
def pickSensorHandle (sensors : List Sensor) (next fuel : Nat) : Option (Nat × Nat) :=
  match fuel with
  | 0 => none
  | fuel + 1 =>
    let handle := next % 2 ^ 32
    let next₁ := (next + 1) % 2 ^ 32
    if handle = 0 ∨ (sensorFindByHandle sensors handle).isSome then
      pickSensorHandle sensors next₁ fuel
    else some (handle, next₁)

/-- First clear bit of the slot bitset (`atomicBitsetFindClearAndSet`
takes the lowest clear index). -/
def bitsetFirstClearIdx (used : List Bool) : Option Nat :=
  match used with
  | [] => none
  | false :: _ => some 0
  | true :: rest => (bitsetFirstClearIdx rest).map (· + 1)

/-- `sensorRegister` / `sensorRegisterEx` (sensors.c lines 83-113):
claim a slot, allocate a fresh handle, fill the slot in (`currentRate =
OFF`, `currentLatency = INVALID`) and publish it.  Returns the handle
(0 on failure) and the new state. -/
def sensorRegister (st : SensorsState) (si : SensorInfo) : Nat × SensorsState :=
  match bitsetFirstClearIdx st.used with
  | none => (0, st)
  | some idx =>
    match pickSensorHandle st.sensors st.nextSensorHandle (st.sensors.length + 2) with
    | none => (0, st)
    | some (handle, next₁) =>
      (handle,
       { st with
           sensors := st.sensors.set idx ⟨si, handle, SENSOR_LATENCY_INVALID, SENSOR_RATE_OFF⟩,
           used := st.used.set idx true,
           nextSensorHandle := next₁ })

/-- `sensorUnregister` (sensors.c lines 120-135): clear the slot's
handle, then its bitset bit; the other fields are left as residue. -/
def sensorUnregister (st : SensorsState) (handle : Nat) : Bool × SensorsState :=
  match sensorFindEntry st.sensors handle with
  | none => (false, st)
  | some (i, s) =>
    (true,
     { st with sensors := st.sensors.set i { s with handle := 0 },
               used := st.used.set i false })

/-- One atomic step of the core: a public-API call or the execution of
one deferred internal-event handler (with an arbitrary driver-supplied
payload), each carrying its driver-outcome oracle. -/
inductive SensorsOp where
  | register (si : SensorInfo)
  | unregister (handle : Nat)
  | request (drv : Driver) (clientId sensorHandle rate latency : Nat)
  | rateChange (drv : Driver) (clientId sensorHandle newRate newLatency : Nat)
  | release (drv : Driver) (clientId sensorHandle : Nat)
  | powerEvt (drv : Driver) (handle value1 : Nat)
  | fwEvt (drv : Driver) (handle value1 value2 : Nat)
  | rateEvt (handle value1 value2 : Nat)

/-- State transition of one `SensorsOp`. -/
def sensorsStep (op : SensorsOp) (st : SensorsState) : SensorsState :=
  match op with
  | SensorsOp.register si => (sensorRegister st si).2
  | SensorsOp.unregister h => (sensorUnregister st h).2
  | SensorsOp.request drv c h r l => (sensorRequest drv st c h r l).2.1
  | SensorsOp.rateChange drv c h r l => (sensorRequestRateChange drv st c h r l).2.1
  | SensorsOp.release drv c h => (sensorRelease drv st c h).2.1
  | SensorsOp.powerEvt drv h v1 => (sensorInternalPowerStateChanged drv st h v1).1
  | SensorsOp.fwEvt drv h v1 v2 => (sensorInternalFwStateChanged drv st h v1 v2).1
  | SensorsOp.rateEvt h v1 v2 => sensorInternalRateChanged st h v1 v2

/-- States reachable from a freshly initialised core by any sequence of
public-API calls and internal-event handler executions. -/
inductive SensorsReachable : SensorsState → Prop where
  | init (n m : Nat) : SensorsReachable (initialSensorsState n m)
  | step (st : SensorsState) (op : SensorsOp) :
      SensorsReachable st → SensorsReachable (sensorsStep op st)

/-- The requests of the pool that the `sensorCalcHwRate` loop actually
counts for sensor handle `h`: live cells matching `h`, except that the
first cell whose rate equals `removedRate` is discarded — after which
the loop's `removedRate` variable is `SENSOR_RATE_OFF`, so from that
point on (and from the start when `removedRate = OFF`) cells with rate
`OFF` are skipped as well. -/
def countedReqs (h : Nat) (pool : List (Option SensorsClientRequest))
    (removedRate : Nat) : List SensorsClientRequest :=
  match pool with
  | [] => []
  | none :: rest => countedReqs h rest removedRate
  | some req :: rest =>
    if req.handle ≠ h then countedReqs h rest removedRate
    else if req.rate = removedRate then countedReqs h rest SENSOR_RATE_OFF
    else req :: countedReqs h rest removedRate

/-- The concrete numeric demand of one contributed rate: the pseudo
rates ON-DEMAND and ON-CHANGE demand no numeric rate. -/
def concreteRate (r : Nat) : Nat :=
  if r = SENSOR_RATE_ONDEMAND ∨ r = SENSOR_RATE_ONCHANGE then 0 else r

/-- Largest concrete numeric rate contributed by a request list. -/
def aggHighest (l : List SensorsClientRequest) : Nat :=
  l.foldr (fun req m => max (concreteRate req.rate) m) 0

/-- Whether some request of the list is an ON-CHANGE request. -/
def aggOnChange (l : List SensorsClientRequest) : Bool :=
  l.any (fun req => decide (req.rate = SENSOR_RATE_ONCHANGE))

/-- The specified aggregation (spec §4.4), phrased over the counted
request list: OFF without users; ON-CHANGE / ON-DEMAND when users exist
but no concrete numeric rate was contributed; otherwise the first
supported rate `≥` the largest contributed concrete rate, or
IMPOSSIBLE when none qualifies. -/
def specCalcHwRate (s : Sensor) (extraRate : Nat)
    (counted : List SensorsClientRequest) : Nat :=
  let users := decide (extraRate ≠ 0) || !counted.isEmpty
  let onchange := decide (extraRate = SENSOR_RATE_ONCHANGE) || aggOnChange counted
  let highest := max (concreteRate extraRate) (aggHighest counted)
  if highest = 0 then
    if users = false then SENSOR_RATE_OFF
    else if onchange then SENSOR_RATE_ONCHANGE
    else SENSOR_RATE_ONDEMAND
  else ((s.si.supportedRates.find? (fun r => highest ≤ r)).getD SENSOR_RATE_IMPOSSIBLE)

/-- All live requests of the pool matching handle `h`, in pool-scan
order. -/
def poolEntries (h : Nat) (pool : List (Option SensorsClientRequest)) :
    List SensorsClientRequest :=
  match pool with
  | [] => []
  | none :: rest => poolEntries h rest
  | some req :: rest =>
    if req.handle = h then req :: poolEntries h rest else poolEntries h rest

/-- Whether the pool holds a live request for `(sensorHandle, clientId)`. -/
def hasRequestFor (pool : List (Option SensorsClientRequest))
    (sensorHandle clientId : Nat) : Bool :=
  pool.any (fun cell =>
    match cell with
    | none => false
    | some req => req.handle == sensorHandle && req.clientId == clientId)

/-- Number of live requests for handle `h` whose rate is `r`. -/
def countRequestsWithRate (h r : Nat) (pool : List (Option SensorsClientRequest)) : Nat :=
  (poolEntries h pool).countP (fun req => req.rate = r)

/-- Index of the first live cell for handle `h` whose rate is `r` (the
cell `sensorCalcHwRate` discards when `removedRate = r`). -/
def firstRateMatchIdx (h r : Nat) (pool : List (Option SensorsClientRequest)) : Option Nat :=
  match pool with
  | [] => none
  | none :: rest => (firstRateMatchIdx h r rest).map (· + 1)
  | some req :: rest =>
    if req.handle = h ∧ req.rate = r then some 0
    else (firstRateMatchIdx h r rest).map (· + 1)

/-- The rate values a live sensor's `currentRate` may hold according to
the spec's invariant (§8): the state-machine sentinels, the pseudo
rates, or a supported rate. -/
def rateAllowed (si : SensorInfo) (r : Nat) : Prop :=
  r = SENSOR_RATE_OFF ∨ r = SENSOR_RATE_POWERING_ON ∨ r = SENSOR_RATE_POWERING_OFF ∨
  r = SENSOR_RATE_FW_UPLOADING ∨ r = SENSOR_RATE_ONDEMAND ∨ r = SENSOR_RATE_ONCHANGE ∨
  r ∈ si.supportedRates

/-- The claimed invariant: every live sensor's `currentRate` is in its
allowed set. -/
def liveRateInvariant (st : SensorsState) : Prop :=
  ∀ s ∈ st.sensors, s.handle ≠ 0 → rateAllowed s.si s.currentRate

/-- The strengthened form the induction carries: the allowed-rate
property holds for every slot, live or residual. -/
def allRateInvariant (st : SensorsState) : Prop :=
  ∀ s ∈ st.sensors, rateAllowed s.si s.currentRate

/-- Payload restriction on one step: firmware-completion and
rate-changed events must carry a rate that is allowed for the sensor
they resolve to (no restriction when the handle does not resolve, and
none on the other operations). -/
def sensorsOpOk (st : SensorsState) (op : SensorsOp) : Prop :=
  match op with
  | SensorsOp.fwEvt _ h v1 _ => ∀ p ∈ sensorFindEntry st.sensors h, rateAllowed p.2.si v1
  | SensorsOp.rateEvt h v1 _ => ∀ p ∈ sensorFindEntry st.sensors h, rateAllowed p.2.si v1
  | _ => True

/-- Reachability under driver payloads restricted by `sensorsOpOk`. -/
inductive GoodSensorsReachable : SensorsState → Prop where
  | init (n m : Nat) : GoodSensorsReachable (initialSensorsState n m)
  | step (st : SensorsState) (op : SensorsOp) :
      GoodSensorsReachable st → sensorsOpOk st op →
      GoodSensorsReachable (sensorsStep op st)

/-- A driver oracle whose calls all succeed (used in concrete runs). -/
def drvOk : Driver := ⟨fun _ => true, fun _ _ => true⟩

/-- Sample descriptor with supported rates 5 < 10 (spec scenario 4). -/
def siSmall : SensorInfo := ⟨1, [5, 10]⟩

/-- Sample descriptor with supported rates 5..100 (spec scenarios 1-3). -/
def siBig : SensorInfo := ⟨2, [5, 10, 25, 50, 100]⟩

instance (si : SensorInfo) (r : Nat) : Decidable (rateAllowed si r) := by
  unfold rateAllowed; infer_instance

instance (st : SensorsState) : Decidable (liveRateInvariant st) := by
  unfold liveRateInvariant; infer_instance

instance (st : SensorsState) : Decidable (allRateInvariant st) := by
  unfold allRateInvariant; infer_instance

/-- A one-sensor state: `siBig` registered (handle 1) on a fresh
2-slot / 4-cell core. -/
def stExample : SensorsState :=
  sensorsStep (SensorsOp.register siBig) (initialSensorsState 2 4)

/-- A one-sensor state with `siSmall` registered (handle 1). -/
def stSmallEx : SensorsState :=
  sensorsStep (SensorsOp.register siSmall) (initialSensorsState 2 4)

/-- A rate-changed event carrying the arbitrary driver payload 7 (not a
supported rate of `siBig`, not a sentinel) delivered to `stExample`. -/
def stC3Bad : SensorsState :=
  sensorsStep (SensorsOp.rateEvt 1 7 0) stExample

/-- Cold start, run up to rate 25, then unregister: the freed slot
keeps `currentRate = 25`, `currentLatency = 100` as residue. -/
def stC5Residue : SensorsState :=
  sensorsStep (SensorsOp.unregister 1)
    (sensorsStep (SensorsOp.fwEvt drvOk 1 25 100)
      (sensorsStep (SensorsOp.powerEvt drvOk 1 1)
        (sensorsStep (SensorsOp.request drvOk 77 1 25 SENSOR_LATENCY_INVALID) stExample)))

/-- `stSmallEx` with a live request (client 7, rate 5, latency 100). -/
def stC8Base : SensorsState :=
  (sensorRequest drvOk stSmallEx 7 1 5 100).2.1

/-- The sensor slot of `stC8Base` (handle 1, powering on). -/
def sensorC8 : Sensor := ⟨siSmall, 1, SENSOR_LATENCY_INVALID, SENSOR_RATE_POWERING_ON⟩

/-- Executable check that a rate list is ascending. -/
def ratesAscendingB : List Nat → Bool
  | [] => true
  | [_] => true
  | a :: b :: rest => decide (a ≤ b) && ratesAscendingB (b :: rest)

theorem sensorReconfig_si_handle (drv : Driver) (s : Sensor) (r l : Nat) :
    (sensorReconfig drv s r l).1.si = s.si ∧ (sensorReconfig drv s r l).1.handle = s.handle := by
  unfold sensorReconfig
  split_ifs <;> simp

theorem sensorReconfig_state_cases (drv : Driver) (s : Sensor) (r l : Nat) :
    (sensorReconfig drv s r l).1 = s ∨
    (((sensorReconfig drv s r l).1.currentRate = SENSOR_RATE_POWERING_ON ∨
      (sensorReconfig drv s r l).1.currentRate = SENSOR_RATE_POWERING_OFF) ∧
     (sensorReconfig drv s r l).1.currentLatency = SENSOR_LATENCY_INVALID) := by
  unfold sensorReconfig
  split_ifs <;> simp

/-- C9: the only values `sensorReconfig` ever stores into the slot's
`currentRate` are the sentinels POWERING-ON and POWERING-OFF, each
paired with `currentLatency = INVALID`; every other execution leaves
the slot exactly as it was (in particular it never writes OFF,
ON-DEMAND, ON-CHANGE or a concrete numeric rate). -/
theorem c9_reconfig_sentinel_transitions (drv : Driver) (s : Sensor)
    (newHwRate newHwLatency : Nat) :
    (sensorReconfig drv s newHwRate newHwLatency).1 = s ∨
    ((sensorReconfig drv s newHwRate newHwLatency).1 =
      { s with currentRate := SENSOR_RATE_POWERING_ON,
               currentLatency := SENSOR_LATENCY_INVALID } ∨
     (sensorReconfig drv s newHwRate newHwLatency).1 =
      { s with currentRate := SENSOR_RATE_POWERING_OFF,
               currentLatency := SENSOR_LATENCY_INVALID }) := by
  unfold sensorReconfig
  split_ifs <;> simp

/-- C2: `sensorReconfig` applies exactly the first matching case of the
six-case ladder: (1) current equals target is a silent no-op; (2) from
OFF it calls `power(true)` and moves to POWERING-ON/INVALID only on
success; (3) from POWERING-OFF it upgrades in place to
POWERING-ON/INVALID with no driver call, whatever the target; (4) from
POWERING-ON or FW-UPLOADING it is a no-op; (5) otherwise a live target
(`rate > OFF` or `latency < INVALID`) issues `setRate` whose result is
ignored and changes no state; (6) otherwise it calls `power(false)` and
moves to POWERING-OFF/INVALID only on success. -/
theorem c2_reconfig_ladder (drv : Driver) (s : Sensor) (r l : Nat) :
    ((s.currentRate = r ∧ s.currentLatency = l) →
      sensorReconfig drv s r l = (s, [])) ∧
    (¬(s.currentRate = r ∧ s.currentLatency = l) →
      (s.currentRate = SENSOR_RATE_OFF →
        (sensorReconfig drv s r l).2 = [DriverCall.power true] ∧
        (drv.power true = true →
          (sensorReconfig drv s r l).1 =
            { s with currentRate := SENSOR_RATE_POWERING_ON,
                     currentLatency := SENSOR_LATENCY_INVALID }) ∧
        (drv.power true = false → (sensorReconfig drv s r l).1 = s)) ∧
      (s.currentRate ≠ SENSOR_RATE_OFF →
        (s.currentRate = SENSOR_RATE_POWERING_OFF →
          sensorReconfig drv s r l =
            ({ s with currentRate := SENSOR_RATE_POWERING_ON,
                      currentLatency := SENSOR_LATENCY_INVALID }, [])) ∧
        (s.currentRate ≠ SENSOR_RATE_POWERING_OFF →
          ((s.currentRate = SENSOR_RATE_POWERING_ON ∨
            s.currentRate = SENSOR_RATE_FW_UPLOADING) →
            sensorReconfig drv s r l = (s, [])) ∧
          (¬(s.currentRate = SENSOR_RATE_POWERING_ON ∨
             s.currentRate = SENSOR_RATE_FW_UPLOADING) →
            ((SENSOR_RATE_OFF < r ∨ l < SENSOR_LATENCY_INVALID) →
              sensorReconfig drv s r l = (s, [DriverCall.setRate r l])) ∧
            (¬(SENSOR_RATE_OFF < r ∨ l < SENSOR_LATENCY_INVALID) →
              (sensorReconfig drv s r l).2 = [DriverCall.power false] ∧
              (drv.power false = true →
                (sensorReconfig drv s r l).1 =
                  { s with currentRate := SENSOR_RATE_POWERING_OFF,
                           currentLatency := SENSOR_LATENCY_INVALID }) ∧
              (drv.power false = false →
                (sensorReconfig drv s r l).1 = s)))))) := by
  unfold sensorReconfig
  split_ifs <;> simp_all

/-- C2 witness: the ladder applied at a concrete slot (a running sensor
at rate 25 being retargeted to rate 50 takes case 5: a lone `setRate`
call and no state change). -/
theorem c2_reconfig_ladder_witness :
    sensorReconfig drvOk ⟨siBig, 1, 100, 25⟩ 50 100 =
      (⟨siBig, 1, 100, 25⟩, [DriverCall.setRate 50 100]) := by
  have h := c2_reconfig_ladder drvOk ⟨siBig, 1, 100, 25⟩ 50 100
  exact (((((h.2 (by decide)).2 (by decide)).2 (by decide)).2 (by decide)).1 (by decide))

theorem aggOnChange_cons (req : SensorsClientRequest) (l : List SensorsClientRequest) :
    aggOnChange (req :: l) = (decide (req.rate = SENSOR_RATE_ONCHANGE) || aggOnChange l) := rfl

theorem aggHighest_cons (req : SensorsClientRequest) (l : List SensorsClientRequest) :
    aggHighest (req :: l) = max (concreteRate req.rate) (aggHighest l) := rfl

/-- The `sensorCalcHwRate` loop, from any accumulator values, computes
exactly the three aggregates of the counted request list. -/
theorem calcScan_eq_counted (h : Nat) (pool : List (Option SensorsClientRequest))
    (hu hoc : Bool) (hi rr : Nat) :
    sensorCalcHwRateScan h pool hu hoc hi rr =
      (hu || !(countedReqs h pool rr).isEmpty,
       hoc || aggOnChange (countedReqs h pool rr),
       max hi (aggHighest (countedReqs h pool rr))) := by
  induction pool generalizing hu hoc hi rr with
  | nil => simp [sensorCalcHwRateScan, countedReqs, aggOnChange, aggHighest]
  | cons cell rest ih =>
    cases cell with
    | none => simpa [sensorCalcHwRateScan, countedReqs] using ih hu hoc hi rr
    | some req =>
      simp only [sensorCalcHwRateScan, countedReqs]
      split_ifs with h1 h2 h3 h4
      · exact ih hu hoc hi rr
      · exact ih hu hoc hi SENSOR_RATE_OFF
      · rw [ih true hoc hi rr]
        simp [aggOnChange_cons, aggHighest_cons, concreteRate, h3, Nat.max_assoc,
          show decide (SENSOR_RATE_ONDEMAND = SENSOR_RATE_ONCHANGE) = false from by decide]
      · rw [ih true true hi rr]
        simp [aggOnChange_cons, aggHighest_cons, concreteRate, h4, Nat.max_assoc,
          Bool.or_assoc]
      · rw [ih true hoc (max hi req.rate) rr]
        simp [aggOnChange_cons, aggHighest_cons, concreteRate, h3, h4, Nat.max_assoc]

/-- On a rate array whose modelled prefix holds no embedded 0 (the
terminator is the end of the list), the supported-rate walk returns the
first entry `≥ highestReq`, or IMPOSSIBLE. -/
theorem firstSupported_eq_find (rates : List Nat) (q : Nat) (hz : ∀ r ∈ rates, r ≠ 0) :
    sensorFirstSupportedRate rates q =
      (rates.find? (fun r => q ≤ r)).getD SENSOR_RATE_IMPOSSIBLE := by
  induction rates with
  | nil => simp [sensorFirstSupportedRate]
  | cons r rest ih =>
    have hr : r ≠ 0 := hz r (List.mem_cons_self r rest)
    by_cases hq : q ≤ r
    · simp [sensorFirstSupportedRate, hr, hq, List.find?_cons]
    · simp [sensorFirstSupportedRate, hr, hq, List.find?_cons,
        ih (fun x hx => hz x (List.mem_cons_of_mem r hx))]

theorem extraHighest_eq_concrete (extra : Nat) :
    (if extra ≠ 0 then
        if extra = SENSOR_RATE_ONDEMAND ∨ extra = SENSOR_RATE_ONCHANGE then 0 else extra
      else 0) = concreteRate extra := by
  unfold concreteRate
  split_ifs with h1 h2 h3 <;> simp_all

/-- C1: for a sensor whose supported-rate list is ascending and
zero-terminated, `sensorCalcHwRate` computes exactly the specified
aggregation over the counted live requests: OFF when neither
`extraRate` nor any counted request contributes a user; ON-CHANGE when
users exist, no concrete numeric rate was contributed and some
contribution is ON-CHANGE; ON-DEMAND when users exist, no concrete rate
and no ON-CHANGE; otherwise the first supported rate `≥` the largest
contributed concrete rate, or IMPOSSIBLE when none qualifies. -/
theorem c1_calcHwRate_spec (pool : List (Option SensorsClientRequest)) (s : Sensor)
    (extraRate removedRate : Nat)
    (hz : ∀ r ∈ s.si.supportedRates, r ≠ 0)
    (hasc : ratesAscendingB s.si.supportedRates = true) :
    sensorCalcHwRate pool s extraRate removedRate =
      specCalcHwRate s extraRate (countedReqs s.handle pool removedRate) := by
  unfold sensorCalcHwRate specCalcHwRate
  dsimp only
  rw [calcScan_eq_counted]
  dsimp only
  rw [extraHighest_eq_concrete, firstSupported_eq_find s.si.supportedRates _ hz]

/-- C1 witness: a pool with an ON-DEMAND request for the sensor, an
ON-CHANGE request, a foreign request, and a removed rate discarding a
25 Hz request; both sides evaluate to ON-CHANGE. -/
theorem c1_calcHwRate_spec_witness :
    (∀ r ∈ siBig.supportedRates, r ≠ 0) ∧
    ratesAscendingB siBig.supportedRates = true ∧
    sensorCalcHwRate
      [some ⟨1, 10, 100, SENSOR_RATE_ONDEMAND⟩, none,
       some ⟨2, 11, 100, 40⟩, some ⟨1, 12, 100, 25⟩,
       some ⟨1, 13, 100, SENSOR_RATE_ONCHANGE⟩]
      ⟨siBig, 1, SENSOR_LATENCY_INVALID, 25⟩ 0 25 =
      specCalcHwRate ⟨siBig, 1, SENSOR_LATENCY_INVALID, 25⟩ 0
        (countedReqs 1
          [some ⟨1, 10, 100, SENSOR_RATE_ONDEMAND⟩, none,
           some ⟨2, 11, 100, 40⟩, some ⟨1, 12, 100, 25⟩,
           some ⟨1, 13, 100, SENSOR_RATE_ONCHANGE⟩] 25) :=
  ⟨by decide, by decide,
    c1_calcHwRate_spec _ _ 0 25 (by decide) (by decide)⟩

theorem count_set_first (h r : Nat) :
    ∀ (pool : List (Option SensorsClientRequest)) (i : Nat),
      firstRateMatchIdx h r pool = some i →
      countRequestsWithRate h r (pool.set i none) + 1 = countRequestsWithRate h r pool := by
  intro pool
  induction pool with
  | nil => intro i hf; simp [firstRateMatchIdx] at hf
  | cons cell rest ih =>
    intro i hf
    cases cell with
    | none =>
      rw [show firstRateMatchIdx h r (none :: rest) =
            (firstRateMatchIdx h r rest).map (· + 1) from rfl,
        Option.map_eq_some'] at hf
      obtain ⟨j, hj, hi⟩ := hf
      subst hi
      simpa [countRequestsWithRate, poolEntries, List.set] using ih j hj
    | some req =>
      by_cases hm : req.handle = h ∧ req.rate = r
      · have hi : (0 : Nat) = i := by simpa [firstRateMatchIdx, hm] using hf
        subst hi
        simp [countRequestsWithRate, poolEntries, List.set, hm.1, hm.2, List.countP_cons]
      · rw [show firstRateMatchIdx h r (some req :: rest) =
              if req.handle = h ∧ req.rate = r then some 0
              else (firstRateMatchIdx h r rest).map (· + 1) from rfl,
          if_neg hm, Option.map_eq_some'] at hf
        obtain ⟨j, hj, hi⟩ := hf
        subst hi
        have hrec := ih j hj
        by_cases hh : req.handle = h
        · have hrr : ¬req.rate = r := fun hc => hm ⟨hh, hc⟩
          simpa [countRequestsWithRate, poolEntries, List.set, hh, hrr,
            List.countP_cons] using hrec
        · simpa [countRequestsWithRate, poolEntries, List.set, hh] using hrec

theorem counted0_nonempty_of_count (h r : Nat) (hr : r ≠ 0) :
    ∀ pool : List (Option SensorsClientRequest),
      1 ≤ countRequestsWithRate h r pool → (countedReqs h pool 0).isEmpty = false := by
  intro pool
  induction pool with
  | nil => intro hc; simp [countRequestsWithRate, poolEntries] at hc
  | cons cell rest ih =>
    intro hc
    cases cell with
    | none =>
      have hc₁ : 1 ≤ countRequestsWithRate h r rest := by
        simpa [countRequestsWithRate, poolEntries] using hc
      simpa [countedReqs] using ih hc₁
    | some req =>
      by_cases hh : req.handle = h
      · by_cases h0 : req.rate = 0
        · have hrr : ¬req.rate = r := by omega
          have hc₁ : 1 ≤ countRequestsWithRate h r rest := by
            simpa [countRequestsWithRate, poolEntries, hh, List.countP_cons, hrr] using hc
          simpa [countedReqs, hh, h0, SENSOR_RATE_OFF] using ih hc₁
        · simp [countedReqs, hh, h0, SENSOR_RATE_OFF]
      · have hc₁ : 1 ≤ countRequestsWithRate h r rest := by
          simpa [countRequestsWithRate, poolEntries, hh] using hc
        simpa [countedReqs, hh] using ih hc₁

theorem c6_scan (h r : Nat) (hr : r ≠ 0) :
    ∀ (pool : List (Option SensorsClientRequest)) (i : Nat) (hu hoc : Bool) (acc : Nat),
      firstRateMatchIdx h r pool = some i →
      2 ≤ countRequestsWithRate h r pool →
      sensorCalcHwRateScan h pool hu hoc acc r =
        sensorCalcHwRateScan h (pool.set i none) hu hoc acc 0 := by
  intro pool
  induction pool with
  | nil => intro i hu hoc acc hf hk; simp [firstRateMatchIdx] at hf
  | cons cell rest ih =>
    intro i hu hoc acc hf hk
    cases cell with
    | none =>
      rw [show firstRateMatchIdx h r (none :: rest) =
            (firstRateMatchIdx h r rest).map (· + 1) from rfl,
        Option.map_eq_some'] at hf
      obtain ⟨j, hj, rfl⟩ := hf
      have hk₁ : 2 ≤ countRequestsWithRate h r rest := by
        simpa [countRequestsWithRate, poolEntries] using hk
      simpa [sensorCalcHwRateScan, List.set] using ih j hu hoc acc hj hk₁
    | some req =>
      by_cases hm : req.handle = h ∧ req.rate = r
      · have hi0 : (0 : Nat) = i := by simpa [firstRateMatchIdx, hm] using hf
        subst hi0
        simp [sensorCalcHwRateScan, hm.1, hm.2, List.set, SENSOR_RATE_OFF]
      · rw [show firstRateMatchIdx h r (some req :: rest) =
              if req.handle = h ∧ req.rate = r then some 0
              else (firstRateMatchIdx h r rest).map (· + 1) from rfl,
          if_neg hm, Option.map_eq_some'] at hf
        obtain ⟨j, hj, rfl⟩ := hf
        by_cases hh : req.handle = h
        · have hrr : ¬req.rate = r := fun hc => hm ⟨hh, hc⟩
          have hk₁ : 2 ≤ countRequestsWithRate h r rest := by
            simpa [countRequestsWithRate, poolEntries, hh, List.countP_cons, hrr] using hk
          by_cases h0 : req.rate = 0
          · have hIH := ih j true hoc acc hj hk₁
            have hcnt : 1 ≤ countRequestsWithRate h r (rest.set j none) := by
              have := count_set_first h r rest j hj
              omega
            have hne := counted0_nonempty_of_count h r hr (rest.set j none) hcnt
            have hr0 : (0 : Nat) ≠ r := Ne.symm hr
            simp only [sensorCalcHwRateScan, List.set]
            simp [hh, h0, hr0, SENSOR_RATE_OFF, SENSOR_RATE_ONDEMAND, SENSOR_RATE_ONCHANGE]
            rw [hIH, calcScan_eq_counted h (rest.set j none) true hoc acc 0,
              calcScan_eq_counted h (rest.set j none) hu hoc acc 0]
            simp [hne]
          · simp only [sensorCalcHwRateScan, List.set]
            simp only [hh, ne_eq, not_true_eq_false, if_false, if_neg hrr, if_neg h0]
            by_cases hod : req.rate = SENSOR_RATE_ONDEMAND
            · rw [if_pos hod, if_pos hod]
              exact ih j true hoc acc hj hk₁
            · rw [if_neg hod, if_neg hod]
              by_cases hoc₂ : req.rate = SENSOR_RATE_ONCHANGE
              · rw [if_pos hoc₂, if_pos hoc₂]
                exact ih j true true acc hj hk₁
              · rw [if_neg hoc₂, if_neg hoc₂]
                exact ih j true hoc (max acc req.rate) hj hk₁
        · have hk₁ : 2 ≤ countRequestsWithRate h r rest := by
            simpa [countRequestsWithRate, poolEntries, hh] using hk
          simp only [sensorCalcHwRateScan, List.set]
          rw [if_pos (by simp [hh]), if_pos (by simp [hh])]
          exact ih j hu hoc acc hj hk₁

/-- C6: when `removedRate = r ≠ OFF` and at least two live requests for
the sensor carry rate `r`, `sensorCalcHwRate` discards exactly the
first such request (at pool index `i`): the result coincides with the
computation on the pool with that one cell freed and no removed rate,
so the remaining `r`-requests still contribute. -/
theorem c6_removedRate_discarded_once (pool : List (Option SensorsClientRequest))
    (s : Sensor) (extraRate r i : Nat)
    (hr : r ≠ SENSOR_RATE_OFF)
    (hfst : firstRateMatchIdx s.handle r pool = some i)
    (hk : 2 ≤ countRequestsWithRate s.handle r pool) :
    sensorCalcHwRate pool s extraRate r = sensorCalcHwRate (pool.set i none) s extraRate 0 := by
  unfold sensorCalcHwRate
  dsimp only
  rw [c6_scan s.handle r (by simpa [SENSOR_RATE_OFF] using hr) pool i _ _ _ hfst hk]

/-- C6 witness: two rate-10 requests plus an ON-DEMAND request; with
`removedRate = 10` only the first rate-10 cell is discarded and the
result is still 10. -/
theorem c6_removedRate_discarded_once_witness :
    (10 : Nat) ≠ SENSOR_RATE_OFF ∧
    firstRateMatchIdx 1 10
      [some ⟨1, 20, 100, 10⟩, some ⟨1, 21, 100, SENSOR_RATE_ONDEMAND⟩,
       some ⟨1, 22, 100, 10⟩] = some 0 ∧
    2 ≤ countRequestsWithRate 1 10
      [some ⟨1, 20, 100, 10⟩, some ⟨1, 21, 100, SENSOR_RATE_ONDEMAND⟩,
       some ⟨1, 22, 100, 10⟩] ∧
    sensorCalcHwRate
      [some ⟨1, 20, 100, 10⟩, some ⟨1, 21, 100, SENSOR_RATE_ONDEMAND⟩,
       some ⟨1, 22, 100, 10⟩] ⟨siBig, 1, SENSOR_LATENCY_INVALID, 10⟩ 0 10 =
      sensorCalcHwRate
        ([some ⟨1, 20, 100, 10⟩, some ⟨1, 21, 100, SENSOR_RATE_ONDEMAND⟩,
          some ⟨1, 22, 100, 10⟩].set 0 none) ⟨siBig, 1, SENSOR_LATENCY_INVALID, 10⟩ 0 0 :=
  ⟨by decide, by decide, by decide,
    c6_removedRate_discarded_once _ _ 0 10 0 (by decide) (by decide) (by decide)⟩

/-- C4: when the aggregation precheck returns IMPOSSIBLE — with the new
rate as `extraRate` for `sensorRequest`, and additionally the client's
old rate as `removedRate` for `sensorRequestRateChange` — the call
returns false and neither the request table nor anything else in the
state is modified. -/
theorem c4_impossible_rejected (drv : Driver) (st : SensorsState)
    (clientId sensorHandle rate latency i : Nat) (s : Sensor)
    (hfind : sensorFindEntry st.sensors sensorHandle = some (i, s)) :
    (sensorCalcHwRate st.pool s rate 0 = SENSOR_RATE_IMPOSSIBLE →
      sensorRequest drv st clientId sensorHandle rate latency = (false, st, [])) ∧
    (∀ oldReq, sensorGetCurRequestorRate st.pool sensorHandle clientId = some oldReq →
      sensorCalcHwRate st.pool s rate oldReq.rate = SENSOR_RATE_IMPOSSIBLE →
      sensorRequestRateChange drv st clientId sensorHandle rate latency =
        (false, st, [])) := by
  refine ⟨fun himp => ?_, fun oldReq hold himp => ?_⟩
  · unfold sensorRequest
    rw [hfind]
    simp [himp]
  · unfold sensorRequestRateChange
    rw [hfind, hold]
    simp [himp]

/-- C4 witness: spec scenario 4 — supported rates `[5, 10]`, requesting
100 Hz is rejected with the table unchanged, both on a fresh request
and on a rate change of an existing 5 Hz request. -/
theorem c4_impossible_rejected_witness :
    sensorRequest drvOk stSmallEx 9 1 100 5 = (false, stSmallEx, []) ∧
    sensorRequestRateChange drvOk stC8Base 7 1 100 5 = (false, stC8Base, []) :=
  ⟨(c4_impossible_rejected drvOk stSmallEx 9 1 100 5 0
      ⟨siSmall, 1, SENSOR_LATENCY_INVALID, SENSOR_RATE_OFF⟩ (by decide)).1 (by decide),
   (c4_impossible_rejected drvOk stC8Base 7 1 100 5 0 sensorC8 (by decide)).2
      ⟨1, 7, 100, 5⟩ (by decide) (by decide)⟩

/-- C10: whenever `sensorRequest` returns false — unresolved handle,
IMPOSSIBLE precheck, or exhausted request pool — the request table,
every sensor slot and the rest of the state are exactly as before and
no driver-binding call is made. -/
theorem c10_failed_request_no_effect (drv : Driver) (st : SensorsState)
    (clientId sensorHandle rate latency : Nat)
    (hfail : (sensorRequest drv st clientId sensorHandle rate latency).1 = false) :
    sensorRequest drv st clientId sensorHandle rate latency = (false, st, []) := by
  unfold sensorRequest at hfail ⊢
  cases hf : sensorFindEntry st.sensors sensorHandle with
  | none => simp
  | some p =>
    obtain ⟨i, s⟩ := p
    rw [hf] at hfail
    dsimp only at hfail ⊢
    by_cases himp : sensorCalcHwRate st.pool s rate 0 = SENSOR_RATE_IMPOSSIBLE
    · simp [himp]
    · rw [if_neg himp] at hfail ⊢
      cases ha : sensorAddRequestor st.pool sensorHandle clientId rate latency with
      | none => simp
      | some pool₁ =>
        rw [ha] at hfail
        simp at hfail

theorem sensorFindEntry_mem (sensors : List Sensor) (h : Nat) :
    ∀ i s, sensorFindEntry sensors h = some (i, s) → s ∈ sensors ∧ s.handle = h := by
  induction sensors with
  | nil => intro i s hf; simp [sensorFindEntry] at hf
  | cons t rest ih =>
    intro i s hf
    by_cases ht : t.handle = h
    · simp only [sensorFindEntry, if_pos ht] at hf
      obtain ⟨h1, h2⟩ := Prod.mk.injEq .. ▸ (Option.some.injEq .. ▸ hf)
      exact ⟨by rw [← h2]; exact List.mem_cons_self t rest, by rw [← h2]; exact ht⟩
    · simp only [sensorFindEntry, if_neg ht, Option.map_eq_some'] at hf
      obtain ⟨⟨j, s₂⟩, hj, hp⟩ := hf
      obtain ⟨-, h2⟩ := Prod.mk.injEq .. ▸ hp
      have := ih j s₂ hj
      exact ⟨by rw [← h2]; exact List.mem_cons_of_mem t this.1, by rw [← h2]; exact this.2⟩

theorem rateAllowed_reconfig (drv : Driver) (s : Sensor) (r l : Nat)
    (hall : rateAllowed s.si s.currentRate) :
    rateAllowed (sensorReconfig drv s r l).1.si (sensorReconfig drv s r l).1.currentRate := by
  rcases sensorReconfig_state_cases drv s r l with h | ⟨hrate, -⟩
  · rw [h]; exact hall
  · rcases hrate with h1 | h1 <;> rw [h1] <;> simp [rateAllowed]

theorem allRateInvariant_step (st : SensorsState) (op : SensorsOp)
    (hinv : allRateInvariant st) (hok : sensorsOpOk st op) :
    allRateInvariant (sensorsStep op st) := by
  cases op with
  | register si₀ =>
    simp only [sensorsStep, sensorRegister]
    cases hbit : bitsetFirstClearIdx st.used with
    | none => exact hinv
    | some idx =>
      cases hph : pickSensorHandle st.sensors st.nextSensorHandle (st.sensors.length + 2) with
      | none => exact hinv
      | some p =>
        obtain ⟨handle, next₁⟩ := p
        intro t ht
        rcases List.mem_or_eq_of_mem_set ht with h1 | h1
        · exact hinv t h1
        · subst h1; exact Or.inl rfl
  | unregister h =>
    simp only [sensorsStep, sensorUnregister]
    cases hf : sensorFindEntry st.sensors h with
    | none => exact hinv
    | some p =>
      obtain ⟨i, s⟩ := p
      dsimp only
      intro t ht
      rcases List.mem_or_eq_of_mem_set ht with h1 | h1
      · exact hinv t h1
      · subst h1
        exact hinv s (sensorFindEntry_mem st.sensors h i s hf).1
  | request drv c h r l =>
    simp only [sensorsStep, sensorRequest]
    cases hf : sensorFindEntry st.sensors h with
    | none => exact hinv
    | some p =>
      obtain ⟨i, s⟩ := p
      dsimp only
      by_cases himp : sensorCalcHwRate st.pool s r 0 = SENSOR_RATE_IMPOSSIBLE
      · rw [if_pos himp]; exact hinv
      · rw [if_neg himp]
        cases ha : sensorAddRequestor st.pool h c r l with
        | none => exact hinv
        | some pool₁ =>
          intro t ht
          rcases List.mem_or_eq_of_mem_set ht with h1 | h1
          · exact hinv t h1
          · subst h1
            exact rateAllowed_reconfig drv s _ _
              (hinv s (sensorFindEntry_mem st.sensors h i s hf).1)
  | rateChange drv c h r l =>
    simp only [sensorsStep, sensorRequestRateChange]
    cases hf : sensorFindEntry st.sensors h with
    | none => exact hinv
    | some p =>
      obtain ⟨i, s⟩ := p
      dsimp only
      cases hold : sensorGetCurRequestorRate st.pool h c with
      | none => exact hinv
      | some oldReq =>
        dsimp only
        by_cases himp : sensorCalcHwRate st.pool s r oldReq.rate = SENSOR_RATE_IMPOSSIBLE
        · rw [if_pos himp]; exact hinv
        · rw [if_neg himp]
          cases ha : sensorAmendRequestor st.pool h c r l with
          | none => exact hinv
          | some pool₁ =>
            intro t ht
            rcases List.mem_or_eq_of_mem_set ht with h1 | h1
            · exact hinv t h1
            · subst h1
              exact rateAllowed_reconfig drv s _ _
                (hinv s (sensorFindEntry_mem st.sensors h i s hf).1)
  | release drv c h =>
    simp only [sensorsStep, sensorRelease]
    cases hf : sensorFindEntry st.sensors h with
    | none => exact hinv
    | some p =>
      obtain ⟨i, s⟩ := p
      dsimp only
      cases hd : sensorDeleteRequestor st.pool h c with
      | none => exact hinv
      | some pool₁ =>
        intro t ht
        rcases List.mem_or_eq_of_mem_set ht with h1 | h1
        · exact hinv t h1
        · subst h1
          exact rateAllowed_reconfig drv s _ _
            (hinv s (sensorFindEntry_mem st.sensors h i s hf).1)
  | powerEvt drv h v1 =>
    simp only [sensorsStep, sensorInternalPowerStateChanged]
    cases hf : sensorFindEntry st.sensors h with
    | none => exact hinv
    | some p =>
      obtain ⟨i, s⟩ := p
      dsimp only
      split_ifs with h1 h2 h3 h4
      · intro t ht
        rcases List.mem_or_eq_of_mem_set ht with hm | hm
        · exact hinv t hm
        · subst hm
          exact Or.inr (Or.inr (Or.inr (Or.inl rfl)))
      · intro t ht
        rcases List.mem_or_eq_of_mem_set ht with hm | hm
        · exact hinv t hm
        · subst hm; exact Or.inl rfl
      · exact hinv
      · exact hinv
      · exact hinv
  | fwEvt drv h v1 v2 =>
    simp only [sensorsStep, sensorInternalFwStateChanged]
    cases hf : sensorFindEntry st.sensors h with
    | none => exact hinv
    | some p =>
      obtain ⟨i, s⟩ := p
      dsimp only
      have hv1 : rateAllowed s.si v1 := by
        have := hok
        simp only [sensorsOpOk] at this
        exact this (i, s) hf
      split_ifs with h1 h2 h3
      · intro t ht
        rcases List.mem_or_eq_of_mem_set ht with hm | hm
        · exact hinv t hm
        · subst hm
          exact Or.inr (Or.inr (Or.inl rfl))
      · intro t ht
        rcases List.mem_or_eq_of_mem_set ht with hm | hm
        · exact hinv t hm
        · subst hm
          exact rateAllowed_reconfig drv
            { s with currentRate := v1, currentLatency := v2 } _ _ hv1
      · exact hinv
      · exact hinv
  | rateEvt h v1 v2 =>
    simp only [sensorsStep, sensorInternalRateChanged]
    cases hf : sensorFindEntry st.sensors h with
    | none => exact hinv
    | some p =>
      obtain ⟨i, s⟩ := p
      dsimp only
      have hv1 : rateAllowed s.si v1 := by
        have := hok
        simp only [sensorsOpOk] at this
        exact this (i, s) hf
      intro t ht
      rcases List.mem_or_eq_of_mem_set ht with hm | hm
      · exact hinv t hm
      · subst hm; exact hv1

theorem goodReachable_allRateInvariant (st : SensorsState)
    (h : GoodSensorsReachable st) : allRateInvariant st := by
  induction h with
  | init n m =>
    intro s hs
    rw [List.eq_of_mem_replicate hs]
    exact Or.inl rfl
  | step st op hst hok ih => exact allRateInvariant_step st op ih hok

/-- C3 counterexample: with an arbitrary driver payload, a single
RATE_CHG event (`value1 = 7`, not a supported rate of the sensor and
not a sentinel) reaches a state whose live sensor violates the claimed
`currentRate` invariant — the handler stores the payload verbatim. -/
theorem c3_arbitrary_payload_breaks_invariant :
    SensorsReachable stC3Bad ∧ ¬liveRateInvariant stC3Bad :=
  ⟨SensorsReachable.step _ _ (SensorsReachable.step _ _ (SensorsReachable.init 2 4)),
   by decide⟩

/-- C3 (amended): in every reachable state whose firmware-completion
and rate-changed events carried payload rates allowed for the targeted
sensor (a sentinel, a pseudo rate, or a supported rate), every live
sensor's `currentRate` is OFF, POWERING-ON, FW-UPLOADING, POWERING-OFF,
ON-DEMAND, ON-CHANGE, or a value of its `supportedRates`. -/
theorem c3_live_rate_invariant (st : SensorsState) (h : GoodSensorsReachable st) :
    liveRateInvariant st :=
  fun s hs _ => goodReachable_allRateInvariant st h s hs

/-- C3 witness: the invariant evaluated on a concrete restricted-payload
reachable state (a freshly registered sensor). -/
theorem c3_live_rate_invariant_witness : liveRateInvariant stExample :=
  c3_live_rate_invariant stExample
    (GoodSensorsReachable.step _ _ (GoodSensorsReachable.init 2 4) trivial)

/-- C5 (code divergence): `sensorFindByHandle` has no special case for
handle 0, so a zero handle resolves to the first *free* slot.  In the
reachable state `stC5Residue` (register, run up to rate 25 / latency
100, unregister) `sensorGetCurRate 0` returns the residue 25 and
`sensorGetCurLatency 0` returns 100 — not OFF / INVALID as the claim
(and the code's own `/* here 0 means invalid */` contract) requires;
even in the freshly initialised state `sensorGetCurLatency 0` returns
the zeroed slot's 0 instead of INVALID. -/
theorem c5_handle_zero_exposes_residue :
    SensorsReachable stC5Residue ∧
    sensorGetCurRate stC5Residue 0 = 25 ∧ (25 : Nat) ≠ SENSOR_RATE_OFF ∧
    sensorGetCurLatency stC5Residue 0 = 100 ∧ (100 : Nat) ≠ SENSOR_LATENCY_INVALID ∧
    sensorGetCurLatency (initialSensorsState 2 4) 0 = 0 ∧
    (0 : Nat) ≠ SENSOR_LATENCY_INVALID :=
  ⟨SensorsReachable.step _ _ (SensorsReachable.step _ _ (SensorsReachable.step _ _
      (SensorsReachable.step _ _ (SensorsReachable.step _ _ (SensorsReachable.init 2 4))))),
   by decide, by decide, by decide, by decide, by decide, by decide⟩

theorem slabFirstFreeIdx_spec :
    ∀ (pool : List (Option SensorsClientRequest)) (j : Nat),
      slabFirstFreeIdx pool = some j → pool[j]? = some none := by
  intro pool
  induction pool with
  | nil => intro j hj; simp [slabFirstFreeIdx] at hj
  | cons cell rest ih =>
    intro j hj
    cases cell with
    | none =>
      have : (0 : Nat) = j := by simpa [slabFirstFreeIdx] using hj
      subst this
      simp
    | some q =>
      rw [show slabFirstFreeIdx (some q :: rest) = (slabFirstFreeIdx rest).map (· + 1)
          from rfl, Option.map_eq_some'] at hj
      obtain ⟨j₀, hj₀, rfl⟩ := hj
      simpa using ih j₀ hj₀

theorem set_none_self :
    ∀ (pool : List (Option SensorsClientRequest)) (j : Nat),
      pool[j]? = some none → pool.set j none = pool := by
  intro pool
  induction pool with
  | nil => intro j hj; simp
  | cons cell rest ih =>
    intro j hj
    cases j with
    | zero =>
      have : cell = none := by simpa using hj
      simp [this]
    | succ j₀ =>
      have := ih j₀ (by simpa using hj)
      simp [List.set, this]

theorem findRequestIdx_after_add (h c : Nat) (req : SensorsClientRequest)
    (hh : req.handle = h) (hc : req.clientId = c) :
    ∀ (pool : List (Option SensorsClientRequest)) (j : Nat),
      hasRequestFor pool h c = false → pool[j]? = some none →
      sensorFindRequestIdx (pool.set j (some req)) h c = some (j, req) := by
  intro pool
  induction pool with
  | nil => intro j hno hj; simp at hj
  | cons cell rest ih =>
    intro j hno hj
    have hno₁ : hasRequestFor rest h c = false := by
      simp only [hasRequestFor, List.any_cons, Bool.or_eq_false_iff] at hno
      exact hno.2
    cases j with
    | zero =>
      have hcell : cell = none := by simpa using hj
      subst hcell
      simp [List.set, sensorFindRequestIdx, hh, hc]
    | succ j₀ =>
      cases cell with
      | none =>
        simp only [List.set, sensorFindRequestIdx]
        rw [ih j₀ hno₁ (by simpa using hj)]
        rfl
      | some q =>
        have hq : ¬(q.handle = h ∧ q.clientId = c) := by
          intro hcon
          simp [hasRequestFor, hcon.1, hcon.2] at hno
        simp only [List.set, sensorFindRequestIdx, if_neg hq]
        rw [ih j₀ hno₁ (by simpa using hj)]
        rfl

theorem sensorFindEntry_set_same :
    ∀ (sensors : List Sensor) (h i : Nat) (s s₂ : Sensor),
      sensorFindEntry sensors h = some (i, s) → s₂.handle = s.handle →
      sensorFindEntry (sensors.set i s₂) h = some (i, s₂) := by
  intro sensors
  induction sensors with
  | nil => intro h i s s₂ hf; simp [sensorFindEntry] at hf
  | cons t rest ih =>
    intro h i s s₂ hf hh
    by_cases ht : t.handle = h
    · have h0 : (0, t) = ((i, s) : Nat × Sensor) := by
        simpa [sensorFindEntry, ht] using hf
      obtain ⟨hi, hs⟩ := Prod.mk.injEq .. ▸ h0
      subst hi
      simp [List.set, sensorFindEntry, hh, ← hs, ht]
    · rw [show sensorFindEntry (t :: rest) h =
            (sensorFindEntry rest h).map (fun p => (p.1 + 1, p.2)) from by
          simp [sensorFindEntry, ht], Option.map_eq_some'] at hf
      obtain ⟨⟨j, s₃⟩, hj, hp⟩ := hf
      obtain ⟨hi, hs⟩ := Prod.mk.injEq .. ▸ hp
      subst hi
      have hs₃ : s₃ = s := hs
      subst hs₃
      simp only [List.set, sensorFindEntry, if_neg ht]
      rw [ih h j s₃ s₂ hj hh]
      rfl

/-- C7: a successful `sensorRequest` for a client with no live request
for that sensor, followed by `sensorRelease` for the same pair,
succeeds and returns the request table to exactly its prior state: the
request pool after the release equals the pool before the request (so
no live `(client, sensor)` request remains and every other client's
requests are untouched). -/
theorem c7_request_release_roundtrip (drv drv₂ : Driver) (st : SensorsState)
    (clientId sensorHandle rate latency i : Nat) (s : Sensor) (st₁ : SensorsState)
    (calls : List DriverCall)
    (hfind : sensorFindEntry st.sensors sensorHandle = some (i, s))
    (hnone : hasRequestFor st.pool sensorHandle clientId = false)
    (hreq : sensorRequest drv st clientId sensorHandle rate latency = (true, st₁, calls)) :
    (sensorRelease drv₂ st₁ clientId sensorHandle).1 = true ∧
    (sensorRelease drv₂ st₁ clientId sensorHandle).2.1.pool = st.pool ∧
    hasRequestFor (sensorRelease drv₂ st₁ clientId sensorHandle).2.1.pool
      sensorHandle clientId = false := by
  unfold sensorRequest at hreq
  rw [hfind] at hreq
  dsimp only at hreq
  by_cases himp : sensorCalcHwRate st.pool s rate 0 = SENSOR_RATE_IMPOSSIBLE
  · rw [if_pos himp] at hreq
    simp at hreq
  · rw [if_neg himp] at hreq
    cases ha : sensorAddRequestor st.pool sensorHandle clientId rate latency with
    | none => rw [ha] at hreq; simp at hreq
    | some pool₁ =>
      rw [ha] at hreq
      dsimp only at hreq
      have hst₁ : st₁ =
          { st with
              sensors := st.sensors.set i
                (sensorReconfig drv s (sensorCalcHwRate st.pool s rate 0)
                  (sensorCalcHwLatency pool₁ s)).1,
              pool := pool₁ } :=
        (congrArg (fun t : Bool × SensorsState × List DriverCall => t.2.1) hreq).symm
      rw [sensorAddRequestor, Option.map_eq_some'] at ha
      obtain ⟨j, hj, hpool₁⟩ := ha
      have hjnone := slabFirstFreeIdx_spec st.pool j hj
      have hshandle : s.handle = sensorHandle :=
        (sensorFindEntry_mem st.sensors sensorHandle i s hfind).2
      have hrc : (sensorReconfig drv s (sensorCalcHwRate st.pool s rate 0)
          (sensorCalcHwLatency pool₁ s)).1.handle = s.handle :=
        (sensorReconfig_si_handle drv s _ _).2
      have hfind₁ : sensorFindEntry st₁.sensors sensorHandle =
          some (i, (sensorReconfig drv s (sensorCalcHwRate st.pool s rate 0)
            (sensorCalcHwLatency pool₁ s)).1) := by
        rw [hst₁]
        exact sensorFindEntry_set_same st.sensors sensorHandle i s _ hfind hrc
      have hfr : sensorFindRequestIdx st₁.pool sensorHandle clientId =
          some (j, ⟨sensorHandle, clientId, latency, rate⟩) := by
        rw [hst₁]
        dsimp only
        rw [← hpool₁]
        exact findRequestIdx_after_add sensorHandle clientId _ rfl rfl st.pool j hnone hjnone
      have hdel : sensorDeleteRequestor st₁.pool sensorHandle clientId = some st.pool := by
        rw [sensorDeleteRequestor, hfr]
        dsimp only [Option.map]
        rw [hst₁]
        dsimp only
        rw [← hpool₁, List.set_set]
        rw [set_none_self st.pool j hjnone]
      unfold sensorRelease
      rw [hfind₁, hdel]
      exact ⟨rfl, rfl, by simpa using hnone⟩

/-- C7 witness: request then release for client 7 on the registered
sensor of `stSmallEx` restores the (empty) request pool. -/
theorem c7_request_release_roundtrip_witness :
    (sensorRelease drvOk stC8Base 7 1).1 = true ∧
    (sensorRelease drvOk stC8Base 7 1).2.1.pool = stSmallEx.pool ∧
    hasRequestFor (sensorRelease drvOk stC8Base 7 1).2.1.pool 1 7 = false := by
  refine c7_request_release_roundtrip drvOk drvOk stSmallEx 7 1 5 100 0
    ⟨siSmall, 1, SENSOR_LATENCY_INVALID, SENSOR_RATE_OFF⟩ stC8Base
    [DriverCall.power true] (by decide) (by decide) ?_
  decide

/-- The latency aggregate of a request list (minimum latency, INVALID
when empty). -/
def latAgg (l : List SensorsClientRequest) : Nat :=
  l.foldr (fun req m => min req.latency m) SENSOR_LATENCY_INVALID

/-- The entries a pool cell contributes to `poolEntries h`. -/
def cellEntries (h : Nat) (cell : Option SensorsClientRequest) : List SensorsClientRequest :=
  match cell with
  | none => []
  | some req => if req.handle = h then [req] else []

theorem poolEntries_cons (h : Nat) (cell : Option SensorsClientRequest)
    (rest : List (Option SensorsClientRequest)) :
    poolEntries h (cell :: rest) = cellEntries h cell ++ poolEntries h rest := by
  cases cell with
  | none => rfl
  | some req =>
    by_cases hh : req.handle = h <;> simp [poolEntries, cellEntries, hh]

theorem poolEntries_set_perm (h : Nat) :
    ∀ (pool : List (Option SensorsClientRequest)) (k : Nat)
      (cell : Option SensorsClientRequest), k < pool.length →
      (poolEntries h (pool.set k cell)).Perm
        (cellEntries h cell ++ poolEntries h (pool.set k none)) := by
  intro pool
  induction pool with
  | nil => intro k cell hk; simp at hk
  | cons c₀ rest ih =>
    intro k cell hk
    cases k with
    | zero =>
      simp only [List.set]
      rw [poolEntries_cons, poolEntries_cons]
      simp [cellEntries]
    | succ k₀ =>
      simp only [List.set]
      rw [poolEntries_cons, poolEntries_cons]
      have hk₀ : k₀ < rest.length := by simpa using hk
      have hp := List.Perm.append_left (cellEntries h c₀) (ih k₀ cell hk₀)
      refine hp.trans ?_
      rw [← List.append_assoc, ← List.append_assoc]
      exact List.Perm.append_right _ List.perm_append_comm

theorem set_getElem_self {α : Type} :
    ∀ (l : List α) (k : Nat) (x : α), l[k]? = some x → l.set k x = l := by
  intro l
  induction l with
  | nil => intro k x hk; simp at hk
  | cons a rest ih =>
    intro k x hk
    cases k with
    | zero =>
      have : a = x := by simpa using hk
      simp [this]
    | succ k₀ =>
      have := ih k₀ x (by simpa using hk)
      simp [List.set, this]

theorem perm_isEmpty {α : Type} {l₁ l₂ : List α} (h : l₁.Perm l₂) :
    l₁.isEmpty = l₂.isEmpty := by
  cases l₁ with
  | nil =>
    have := h.length_eq
    cases l₂ <;> simp_all
  | cons a t =>
    have := h.length_eq
    cases l₂ <;> simp_all

theorem perm_any {α : Type} (p : α → Bool) {l₁ l₂ : List α} (h : l₁.Perm l₂) :
    l₁.any p = l₂.any p := by
  cases hb : l₂.any p
  · rw [List.any_eq_false] at hb ⊢
    intro a ha
    exact hb a (h.mem_iff.mp ha)
  · rw [List.any_eq_true] at hb ⊢
    obtain ⟨a, ha, hp⟩ := hb
    exact ⟨a, h.mem_iff.mpr ha, hp⟩

theorem perm_aggHighest {l₁ l₂ : List SensorsClientRequest} (h : l₁.Perm l₂) :
    aggHighest l₁ = aggHighest l₂ := by
  have lc : LeftCommutative
      (fun (req : SensorsClientRequest) (m : Nat) => max (concreteRate req.rate) m) := ⟨by
    intro a b c
    exact Nat.max_left_comm _ _ _⟩
  exact List.Perm.foldr_eq h 0

theorem perm_latAgg {l₁ l₂ : List SensorsClientRequest} (h : l₁.Perm l₂) :
    latAgg l₁ = latAgg l₂ := by
  have lc : LeftCommutative
      (fun (req : SensorsClientRequest) (m : Nat) => min req.latency m) := ⟨by
    intro a b c
    exact Nat.min_left_comm _ _ _⟩
  exact List.Perm.foldr_eq h SENSOR_LATENCY_INVALID

theorem counted0_eq_filter (h : Nat) :
    ∀ pool : List (Option SensorsClientRequest),
      countedReqs h pool 0 =
        (poolEntries h pool).filter (fun req => !decide (req.rate = 0)) := by
  intro pool
  induction pool with
  | nil => rfl
  | cons cell rest ih =>
    rw [poolEntries_cons]
    cases cell with
    | none => simpa [countedReqs, cellEntries] using ih
    | some req =>
      by_cases hh : req.handle = h
      · by_cases h0 : req.rate = 0
        · simp [countedReqs, cellEntries, hh, h0, SENSOR_RATE_OFF, List.filter_cons, ih]
        · simp [countedReqs, cellEntries, hh, h0, List.filter_cons, ih]
      · simp [countedReqs, cellEntries, hh, ih]

theorem foldr_min_acc :
    ∀ (l : List SensorsClientRequest) (acc x : Nat),
      l.foldr (fun req m => min req.latency m) (min acc x) =
        min x (l.foldr (fun req m => min req.latency m) acc) := by
  intro l
  induction l with
  | nil => intro acc x; simp [Nat.min_comm]
  | cons q rest ih =>
    intro acc x
    simp only [List.foldr_cons, ih]
    rw [Nat.min_left_comm]

theorem latScan_eq_entries (h : Nat) :
    ∀ (pool : List (Option SensorsClientRequest)) (acc : Nat),
      sensorCalcHwLatencyScan h pool acc =
        (poolEntries h pool).foldr (fun req m => min req.latency m) acc := by
  intro pool
  induction pool with
  | nil => intro acc; rfl
  | cons cell rest ih =>
    intro acc
    rw [poolEntries_cons]
    cases cell with
    | none => simpa [sensorCalcHwLatencyScan, cellEntries] using ih acc
    | some req =>
      by_cases hh : req.handle = h
      · have h1 : ¬req.handle ≠ h := by simpa using hh
        rw [show sensorCalcHwLatencyScan h (some req :: rest) acc =
              sensorCalcHwLatencyScan h rest (min acc req.latency) from by
            simp [sensorCalcHwLatencyScan, h1]]
        rw [ih (min acc req.latency), foldr_min_acc]
        simp [cellEntries, hh]
      · have h1 : req.handle ≠ h := hh
        rw [show sensorCalcHwLatencyScan h (some req :: rest) acc =
              sensorCalcHwLatencyScan h rest acc from by
            simp [sensorCalcHwLatencyScan, h1]]
        simp [cellEntries, hh, ih acc]

theorem calcHwLatency_eq_latAgg (pool : List (Option SensorsClientRequest)) (s : Sensor) :
    sensorCalcHwLatency pool s = latAgg (poolEntries s.handle pool) := by
  rw [sensorCalcHwLatency, latScan_eq_entries]
  rfl

theorem counted0_set_zero (h : Nat) :
    ∀ (pool : List (Option SensorsClientRequest)) (k : Nat) (req : SensorsClientRequest),
      pool[k]? = some (some req) → req.rate = 0 →
      countedReqs h (pool.set k none) 0 = countedReqs h pool 0 := by
  intro pool
  induction pool with
  | nil => intro k req hk h0; simp at hk
  | cons cell rest ih =>
    intro k req hk h0
    cases k with
    | zero =>
      have hcell : cell = some req := by simpa using hk
      subst hcell
      by_cases hh : req.handle = h
      · simp [List.set, countedReqs, hh, h0, SENSOR_RATE_OFF]
      · simp [List.set, countedReqs, hh]
    | succ k₀ =>
      have hk₀ : rest[k₀]? = some (some req) := by simpa using hk
      have hrec := ih k₀ req hk₀ h0
      cases cell with
      | none => simpa [List.set, countedReqs] using hrec
      | some q =>
        by_cases hh : q.handle = h
        · by_cases hq0 : q.rate = 0
          · simpa [List.set, countedReqs, hh, hq0, SENSOR_RATE_OFF] using hrec
          · simpa [List.set, countedReqs, hh, hq0] using hrec
        · simpa [List.set, countedReqs, hh] using hrec

theorem aggH_set_some (h : Nat) :
    ∀ (pool : List (Option SensorsClientRequest)) (k : Nat) (req : SensorsClientRequest),
      pool[k]? = some (some req) → req.handle = h →
      aggHighest (countedReqs h pool 0) =
        max (concreteRate req.rate) (aggHighest (countedReqs h (pool.set k none) 0)) := by
  intro pool
  induction pool with
  | nil => intro k req hk hh; simp at hk
  | cons cell rest ih =>
    intro k req hk hh
    cases k with
    | zero =>
      have hcell : cell = some req := by simpa using hk
      subst hcell
      by_cases h0 : req.rate = 0
      · simp [List.set, countedReqs, hh, h0, SENSOR_RATE_OFF, concreteRate,
          SENSOR_RATE_ONDEMAND, SENSOR_RATE_ONCHANGE]
      · simp [List.set, countedReqs, hh, h0, aggHighest_cons]
    | succ k₀ =>
      have hk₀ : rest[k₀]? = some (some req) := by simpa using hk
      have hrec := ih k₀ req hk₀ hh
      cases cell with
      | none => simpa [List.set, countedReqs] using hrec
      | some q =>
        by_cases hq : q.handle = h
        · by_cases hq0 : q.rate = 0
          · simpa [List.set, countedReqs, hq, hq0, SENSOR_RATE_OFF] using hrec
          · simp [List.set, countedReqs, hq, hq0, aggHighest_cons]
            rw [hrec, Nat.max_left_comm]
        · simpa [List.set, countedReqs, hq] using hrec

theorem counted_H_erase (h : Nat) :
    ∀ (pool : List (Option SensorsClientRequest)) (k : Nat) (req : SensorsClientRequest),
      pool[k]? = some (some req) → req.handle = h →
      aggHighest (countedReqs h pool req.rate) =
        aggHighest (countedReqs h (pool.set k none) 0) := by
  intro pool
  induction pool with
  | nil => intro k req hk hh; simp at hk
  | cons cell rest ih =>
    intro k req hk hh
    cases k with
    | zero =>
      have hcell : cell = some req := by simpa using hk
      subst hcell
      simp [List.set, countedReqs, hh, SENSOR_RATE_OFF]
    | succ k₀ =>
      have hk₀ : rest[k₀]? = some (some req) := by simpa using hk
      cases cell with
      | none => simpa [List.set, countedReqs] using ih k₀ req hk₀ hh
      | some q =>
        by_cases hq : q.handle = h
        · by_cases hqr : q.rate = req.rate
          · by_cases h0 : req.rate = 0
            · rw [show (some q :: rest).set (k₀ + 1) none = some q :: rest.set k₀ none
                  from rfl]
              rw [show countedReqs h (some q :: rest) req.rate =
                    countedReqs h rest SENSOR_RATE_OFF from by
                  simp [countedReqs, hq, hqr]]
              rw [show countedReqs h (some q :: rest.set k₀ none) 0 =
                    countedReqs h (rest.set k₀ none) SENSOR_RATE_OFF from by
                  simp [countedReqs, hq, hqr, h0, SENSOR_RATE_OFF]]
              rw [show SENSOR_RATE_OFF = 0 from rfl,
                counted0_set_zero h rest k₀ req hk₀ h0]
            · rw [show (some q :: rest).set (k₀ + 1) none = some q :: rest.set k₀ none
                  from rfl]
              rw [show countedReqs h (some q :: rest) req.rate =
                    countedReqs h rest SENSOR_RATE_OFF from by
                  simp [countedReqs, hq, hqr]]
              have hq0 : ¬q.rate = 0 := by rw [hqr]; exact h0
              rw [show countedReqs h (some q :: rest.set k₀ none) 0 =
                    q :: countedReqs h (rest.set k₀ none) 0 from by
                  simp [countedReqs, hq, hq0]]
              rw [show SENSOR_RATE_OFF = 0 from rfl, aggHighest_cons, hqr]
              exact aggH_set_some h rest k₀ req hk₀ hh
          · by_cases hq0 : q.rate = 0
            · have h0 : ¬req.rate = 0 := by
                intro hc; rw [hc] at hqr; exact hqr hq0
              rw [show (some q :: rest).set (k₀ + 1) none = some q :: rest.set k₀ none
                  from rfl]
              rw [show countedReqs h (some q :: rest) req.rate =
                    q :: countedReqs h rest req.rate from by
                  simp [countedReqs, hq, hqr]]
              rw [show countedReqs h (some q :: rest.set k₀ none) 0 =
                    countedReqs h (rest.set k₀ none) SENSOR_RATE_OFF from by
                  simp [countedReqs, hq, hq0, SENSOR_RATE_OFF]]
              rw [aggHighest_cons, show concreteRate q.rate = 0 from by
                  simp [concreteRate, hq0, SENSOR_RATE_ONDEMAND, SENSOR_RATE_ONCHANGE]]
              rw [Nat.zero_max, show SENSOR_RATE_OFF = 0 from rfl]
              exact ih k₀ req hk₀ hh
            · rw [show (some q :: rest).set (k₀ + 1) none = some q :: rest.set k₀ none
                  from rfl]
              rw [show countedReqs h (some q :: rest) req.rate =
                    q :: countedReqs h rest req.rate from by
                  simp [countedReqs, hq, hqr]]
              rw [show countedReqs h (some q :: rest.set k₀ none) 0 =
                    q :: countedReqs h (rest.set k₀ none) 0 from by
                  simp [countedReqs, hq, hq0]]
              rw [aggHighest_cons, aggHighest_cons, ih k₀ req hk₀ hh]
        · simpa [List.set, countedReqs, hq] using ih k₀ req hk₀ hh

theorem calc_eq_branch (pool : List (Option SensorsClientRequest)) (s : Sensor)
    (e rr : Nat) :
    sensorCalcHwRate pool s e rr =
      (if max (concreteRate e) (aggHighest (countedReqs s.handle pool rr)) = 0 then
        if (decide (e ≠ 0) || !(countedReqs s.handle pool rr).isEmpty) = false then
          SENSOR_RATE_OFF
        else if (decide (e = SENSOR_RATE_ONCHANGE) || aggOnChange (countedReqs s.handle pool rr))
          then SENSOR_RATE_ONCHANGE
        else SENSOR_RATE_ONDEMAND
      else
        sensorFirstSupportedRate s.si.supportedRates
          (max (concreteRate e) (aggHighest (countedReqs s.handle pool rr)))) := by
  unfold sensorCalcHwRate
  dsimp only
  rw [calcScan_eq_counted]
  dsimp only
  rw [extraHighest_eq_concrete]

theorem calc_impossible_iff (pool : List (Option SensorsClientRequest)) (s : Sensor)
    (e rr : Nat) :
    (sensorCalcHwRate pool s e rr = SENSOR_RATE_IMPOSSIBLE) ↔
      (max (concreteRate e) (aggHighest (countedReqs s.handle pool rr)) ≠ 0 ∧
       sensorFirstSupportedRate s.si.supportedRates
         (max (concreteRate e) (aggHighest (countedReqs s.handle pool rr))) =
           SENSOR_RATE_IMPOSSIBLE) := by
  rw [calc_eq_branch]
  by_cases hH : max (concreteRate e) (aggHighest (countedReqs s.handle pool rr)) = 0
  · rw [if_pos hH]
    constructor
    · intro hc
      split_ifs at hc <;>
        simp [SENSOR_RATE_OFF, SENSOR_RATE_ONCHANGE, SENSOR_RATE_ONDEMAND,
          SENSOR_RATE_IMPOSSIBLE] at hc
    · rintro ⟨h1, -⟩
      exact absurd hH h1
  · rw [if_neg hH]
    simp [hH]

theorem findRequestIdx_get (h c : Nat) :
    ∀ (pool : List (Option SensorsClientRequest)) (k : Nat) (req : SensorsClientRequest),
      sensorFindRequestIdx pool h c = some (k, req) →
      pool[k]? = some (some req) ∧ req.handle = h ∧ req.clientId = c := by
  intro pool
  induction pool with
  | nil => intro k req hf; simp [sensorFindRequestIdx] at hf
  | cons cell rest ih =>
    intro k req hf
    cases cell with
    | none =>
      rw [show sensorFindRequestIdx (none :: rest) h c =
            (sensorFindRequestIdx rest h c).map (fun p => (p.1 + 1, p.2)) from rfl,
        Option.map_eq_some'] at hf
      obtain ⟨⟨j, q⟩, hj, hp⟩ := hf
      obtain ⟨hk, hq⟩ := Prod.mk.injEq .. ▸ hp
      subst hk
      have := ih j q hj
      rw [← hq]
      exact ⟨by simpa using this.1, this.2⟩
    | some q₀ =>
      by_cases hm : q₀.handle = h ∧ q₀.clientId = c
      · have h0 : ((0 : Nat), q₀) = (k, req) := by
          simpa [sensorFindRequestIdx, hm] using hf
        obtain ⟨hk, hq⟩ := Prod.mk.injEq .. ▸ h0
        subst hk
        rw [← hq]
        exact ⟨by simp, hm⟩
      · rw [show sensorFindRequestIdx (some q₀ :: rest) h c =
              if q₀.handle = h ∧ q₀.clientId = c then some (0, q₀)
              else (sensorFindRequestIdx rest h c).map (fun p => (p.1 + 1, p.2)) from rfl,
          if_neg hm, Option.map_eq_some'] at hf
        obtain ⟨⟨j, q⟩, hj, hp⟩ := hf
        obtain ⟨hk, hq⟩ := Prod.mk.injEq .. ▸ hp
        subst hk
        have := ih j q hj
        rw [← hq]
        exact ⟨by simpa using this.1, this.2⟩

theorem slabFirstFreeIdx_isSome (pool : List (Option SensorsClientRequest)) (k : Nat)
    (hk : pool[k]? = some none) : (slabFirstFreeIdx pool).isSome = true := by
  induction pool generalizing k with
  | nil => simp at hk
  | cons cell rest ih =>
    cases cell with
    | none => simp [slabFirstFreeIdx]
    | some q =>
      cases k with
      | zero => simp at hk
      | succ k₀ =>
        have := ih (k := k₀) (by simpa using hk)
        obtain ⟨v, hv⟩ := Option.isSome_iff_exists.mp this
        simp [slabFirstFreeIdx, hv]

theorem calc_sensor_congr (pool : List (Option SensorsClientRequest)) (s₁ s₂ : Sensor)
    (e rr : Nat) (hh : s₁.handle = s₂.handle) (hsi : s₁.si = s₂.si) :
    sensorCalcHwRate pool s₁ e rr = sensorCalcHwRate pool s₂ e rr := by
  unfold sensorCalcHwRate
  rw [hh, hsi]

theorem calc0_entries_congr (p₁ p₂ : List (Option SensorsClientRequest)) (s : Sensor)
    (e : Nat) (hperm : (poolEntries s.handle p₁).Perm (poolEntries s.handle p₂)) :
    sensorCalcHwRate p₁ s e 0 = sensorCalcHwRate p₂ s e 0 := by
  have hc : (countedReqs s.handle p₁ 0).Perm (countedReqs s.handle p₂ 0) := by
    rw [counted0_eq_filter, counted0_eq_filter]
    exact hperm.filter _
  rw [calc_eq_branch, calc_eq_branch, perm_aggHighest hc, perm_isEmpty hc,
    show aggOnChange (countedReqs s.handle p₁ 0) = aggOnChange (countedReqs s.handle p₂ 0)
      from perm_any _ hc]

theorem latency_entries_congr (p₁ p₂ : List (Option SensorsClientRequest)) (s : Sensor)
    (hperm : (poolEntries s.handle p₁).Perm (poolEntries s.handle p₂)) :
    sensorCalcHwLatency p₁ s = sensorCalcHwLatency p₂ s := by
  rw [calcHwLatency_eq_latAgg, calcHwLatency_eq_latAgg, perm_latAgg hperm]

/-- C8 (amended): `sensorRequestRateChange(c, S, r, l)` returns false
when the client has no live request; when a prior request exists, its
success/failure flag always matches that of the sequence
`sensorRelease(c, S); sensorRequest(c, S, r, l)`, and whenever it
succeeds the two resulting request tables yield identical aggregator
outputs `calcHwRate(S, 0, 0)` and `calcHwLatency(S)`.  (When both
reject as IMPOSSIBLE the outputs differ — the sequence has already
deleted the request — which is what the counterexample exhibits.) -/
theorem c8_rate_change_equiv_release_request (drv : Driver) (st : SensorsState)
    (clientId sensorHandle newRate newLatency i : Nat) (s : Sensor)
    (hfind : sensorFindEntry st.sensors sensorHandle = some (i, s)) :
    (sensorGetCurRequestorRate st.pool sensorHandle clientId = none →
      (sensorRequestRateChange drv st clientId sensorHandle newRate newLatency).1 = false) ∧
    (∀ oldReq, sensorGetCurRequestorRate st.pool sensorHandle clientId = some oldReq →
      ((sensorRequestRateChange drv st clientId sensorHandle newRate newLatency).1 =
       (sensorRequest drv (sensorRelease drv st clientId sensorHandle).2.1
          clientId sensorHandle newRate newLatency).1) ∧
      ((sensorRequestRateChange drv st clientId sensorHandle newRate newLatency).1 = true →
        sensorCalcHwRate
            (sensorRequestRateChange drv st clientId sensorHandle newRate newLatency).2.1.pool
            s 0 0 =
          sensorCalcHwRate
            (sensorRequest drv (sensorRelease drv st clientId sensorHandle).2.1
              clientId sensorHandle newRate newLatency).2.1.pool s 0 0 ∧
        sensorCalcHwLatency
            (sensorRequestRateChange drv st clientId sensorHandle newRate newLatency).2.1.pool
            s =
          sensorCalcHwLatency
            (sensorRequest drv (sensorRelease drv st clientId sensorHandle).2.1
              clientId sensorHandle newRate newLatency).2.1.pool s)) := by
  have hs_handle : s.handle = sensorHandle :=
    (sensorFindEntry_mem st.sensors sensorHandle i s hfind).2
  constructor
  · intro hnone
    unfold sensorRequestRateChange
    rw [hfind, hnone]
  · intro oldReq hold
    have hfr : ∃ k, sensorFindRequestIdx st.pool sensorHandle clientId = some (k, oldReq) := by
      rw [sensorGetCurRequestorRate, Option.map_eq_some'] at hold
      obtain ⟨⟨k, q⟩, hk, hq⟩ := hold
      refine ⟨k, ?_⟩
      rw [hk]
      simp only at hq
      rw [hq]
    obtain ⟨k, hfr⟩ := hfr
    have hget := findRequestIdx_get sensorHandle clientId st.pool k oldReq hfr
    have hklt : k < st.pool.length := (List.getElem?_eq_some.mp hget.1).1
    have hdel : sensorDeleteRequestor st.pool sensorHandle clientId =
        some (st.pool.set k none) := by
      rw [sensorDeleteRequestor, hfr]
      rfl
    have hrel : sensorRelease drv st clientId sensorHandle =
        (true,
         { st with
             sensors := st.sensors.set i
               (sensorReconfig drv s (sensorCalcHwRate (st.pool.set k none) s 0 0)
                 (sensorCalcHwLatency (st.pool.set k none) s)).1,
             pool := st.pool.set k none },
         (sensorReconfig drv s (sensorCalcHwRate (st.pool.set k none) s 0 0)
           (sensorCalcHwLatency (st.pool.set k none) s)).2) := by
      unfold sensorRelease
      rw [hfind, hdel]
    have hrc_h : (sensorReconfig drv s (sensorCalcHwRate (st.pool.set k none) s 0 0)
        (sensorCalcHwLatency (st.pool.set k none) s)).1.handle = s.handle :=
      (sensorReconfig_si_handle drv s _ _).2
    have hrc_si : (sensorReconfig drv s (sensorCalcHwRate (st.pool.set k none) s 0 0)
        (sensorCalcHwLatency (st.pool.set k none) s)).1.si = s.si :=
      (sensorReconfig_si_handle drv s _ _).1
    have hfind₂ : sensorFindEntry
        (st.sensors.set i (sensorReconfig drv s (sensorCalcHwRate (st.pool.set k none) s 0 0)
          (sensorCalcHwLatency (st.pool.set k none) s)).1) sensorHandle =
        some (i, (sensorReconfig drv s (sensorCalcHwRate (st.pool.set k none) s 0 0)
          (sensorCalcHwLatency (st.pool.set k none) s)).1) :=
      sensorFindEntry_set_same st.sensors sensorHandle i s _ hfind hrc_h
    have hX₂ : sensorCalcHwRate (st.pool.set k none)
        (sensorReconfig drv s (sensorCalcHwRate (st.pool.set k none) s 0 0)
          (sensorCalcHwLatency (st.pool.set k none) s)).1 newRate 0 =
        sensorCalcHwRate (st.pool.set k none) s newRate 0 :=
      calc_sensor_congr _ _ _ _ _ hrc_h hrc_si
    have hH : aggHighest (countedReqs s.handle st.pool oldReq.rate) =
        aggHighest (countedReqs s.handle (st.pool.set k none) 0) :=
      counted_H_erase s.handle st.pool k oldReq hget.1 (by rw [hget.2.1, hs_handle])
    have hIff : (sensorCalcHwRate st.pool s newRate oldReq.rate = SENSOR_RATE_IMPOSSIBLE) ↔
        (sensorCalcHwRate (st.pool.set k none) s newRate 0 = SENSOR_RATE_IMPOSSIBLE) := by
      rw [calc_impossible_iff, calc_impossible_iff, hH]
    by_cases himp : sensorCalcHwRate st.pool s newRate oldReq.rate = SENSOR_RATE_IMPOSSIBLE
    · have himp₂ := hIff.mp himp
      have hrrc : sensorRequestRateChange drv st clientId sensorHandle newRate newLatency =
          (false, st, []) := by
        unfold sensorRequestRateChange
        rw [hfind, hold]
        dsimp only
        rw [if_pos himp]
      have hreq2 : (sensorRequest drv (sensorRelease drv st clientId sensorHandle).2.1
          clientId sensorHandle newRate newLatency).1 = false := by
        rw [hrel]
        dsimp only
        unfold sensorRequest
        rw [hfind₂]
        dsimp only
        rw [hX₂, if_pos himp₂]
      refine ⟨?_, ?_⟩
      · rw [hrrc, hreq2]
      · intro hcontra
        rw [hrrc] at hcontra
        simp at hcontra
    · have himp₂ : ¬sensorCalcHwRate (st.pool.set k none) s newRate 0 =
          SENSOR_RATE_IMPOSSIBLE := fun hc => himp (hIff.mpr hc)
      have hbase_k : (st.pool.set k none)[k]? = some none := by
        simp [List.getElem?_set_self']
        exact ⟨_, List.getElem?_eq_getElem hklt⟩
      obtain ⟨j, hj⟩ := Option.isSome_iff_exists.mp
        (slabFirstFreeIdx_isSome (st.pool.set k none) k hbase_k)
      have hjget := slabFirstFreeIdx_spec (st.pool.set k none) j hj
      have hjlt : j < (st.pool.set k none).length := (List.getElem?_eq_some.mp hjget).1
      have hadd : sensorAddRequestor (st.pool.set k none) sensorHandle clientId
          newRate newLatency =
          some ((st.pool.set k none).set j
            (some ⟨sensorHandle, clientId, newLatency, newRate⟩)) := by
        rw [sensorAddRequestor, hj]
        rfl
      have hamend : sensorAmendRequestor st.pool sensorHandle clientId newRate newLatency =
          some (st.pool.set k (some ⟨sensorHandle, clientId, newLatency, newRate⟩)) := by
        rw [sensorAmendRequestor, hfr]
        dsimp only [Option.map]
        rw [← hget.2.1, ← hget.2.2]
      have hrrc : sensorRequestRateChange drv st clientId sensorHandle newRate newLatency =
          (true,
           { st with
               sensors := st.sensors.set i
                 (sensorReconfig drv s (sensorCalcHwRate st.pool s newRate oldReq.rate)
                   (sensorCalcHwLatency
                     (st.pool.set k (some ⟨sensorHandle, clientId, newLatency, newRate⟩)) s)).1,
               pool := st.pool.set k (some ⟨sensorHandle, clientId, newLatency, newRate⟩) },
           (sensorReconfig drv s (sensorCalcHwRate st.pool s newRate oldReq.rate)
             (sensorCalcHwLatency
               (st.pool.set k (some ⟨sensorHandle, clientId, newLatency, newRate⟩)) s)).2) := by
        unfold sensorRequestRateChange
        rw [hfind, hold]
        dsimp only
        rw [if_neg himp, hamend]
      have hreq2 : sensorRequest drv (sensorRelease drv st clientId sensorHandle).2.1
          clientId sensorHandle newRate newLatency =
          (true,
           { st with
               sensors := (st.sensors.set i
                 (sensorReconfig drv s (sensorCalcHwRate (st.pool.set k none) s 0 0)
                   (sensorCalcHwLatency (st.pool.set k none) s)).1).set i
                 (sensorReconfig drv
                   (sensorReconfig drv s (sensorCalcHwRate (st.pool.set k none) s 0 0)
                     (sensorCalcHwLatency (st.pool.set k none) s)).1
                   (sensorCalcHwRate (st.pool.set k none)
                     (sensorReconfig drv s (sensorCalcHwRate (st.pool.set k none) s 0 0)
                       (sensorCalcHwLatency (st.pool.set k none) s)).1 newRate 0)
                   (sensorCalcHwLatency
                     ((st.pool.set k none).set j
                       (some ⟨sensorHandle, clientId, newLatency, newRate⟩))
                     (sensorReconfig drv s (sensorCalcHwRate (st.pool.set k none) s 0 0)
                       (sensorCalcHwLatency (st.pool.set k none) s)).1)).1,
               pool := (st.pool.set k none).set j
                 (some ⟨sensorHandle, clientId, newLatency, newRate⟩) },
           (sensorReconfig drv
             (sensorReconfig drv s (sensorCalcHwRate (st.pool.set k none) s 0 0)
               (sensorCalcHwLatency (st.pool.set k none) s)).1
             (sensorCalcHwRate (st.pool.set k none)
               (sensorReconfig drv s (sensorCalcHwRate (st.pool.set k none) s 0 0)
                 (sensorCalcHwLatency (st.pool.set k none) s)).1 newRate 0)
             (sensorCalcHwLatency
               ((st.pool.set k none).set j
                 (some ⟨sensorHandle, clientId, newLatency, newRate⟩))
               (sensorReconfig drv s (sensorCalcHwRate (st.pool.set k none) s 0 0)
                 (sensorCalcHwLatency (st.pool.set k none) s)).1)).2) := by
        rw [hrel]
        dsimp only
        unfold sensorRequest
        rw [hfind₂]
        dsimp only
        rw [hX₂, if_neg himp₂, hadd]
      have hperm : (poolEntries s.handle
          (st.pool.set k (some ⟨sensorHandle, clientId, newLatency, newRate⟩))).Perm
          (poolEntries s.handle ((st.pool.set k none).set j
            (some ⟨sensorHandle, clientId, newLatency, newRate⟩))) := by
        have hA := poolEntries_set_perm s.handle st.pool k
          (some ⟨sensorHandle, clientId, newLatency, newRate⟩) hklt
        have hB := poolEntries_set_perm s.handle (st.pool.set k none) j
          (some ⟨sensorHandle, clientId, newLatency, newRate⟩) hjlt
        rw [set_none_self (st.pool.set k none) j hjget] at hB
        exact hA.trans hB.symm
      refine ⟨?_, ?_⟩
      · rw [hrrc, hreq2]
      · intro htrue
        rw [hrrc, hreq2]
        dsimp only
        exact ⟨calc0_entries_congr _ _ s 0 hperm, latency_entries_congr _ _ s hperm⟩

/-- C8 counterexample: `siSmall` supports `[5, 10]` and client 7 holds
a 5 Hz request.  Changing the rate to the infeasible 50 Hz and,
separately, running `release; request(50)` both reject, but the
resulting aggregator outputs differ: the rate change left the 5 Hz
request in place (`calcHwRate = 5`, `calcHwLatency = 100`) while the
sequence had already deleted it (`OFF` / `INVALID`) — so the claim's
"its success/failure and the resulting aggregator outputs are the same"
fails as stated. -/
theorem c8_failed_change_outputs_differ :
    (sensorGetCurRequestorRate stC8Base.pool 1 7).isSome = true ∧
    (sensorRequestRateChange drvOk stC8Base 7 1 50 100).1 = false ∧
    (sensorRequest drvOk (sensorRelease drvOk stC8Base 7 1).2.1 7 1 50 100).1 = false ∧
    sensorCalcHwRate (sensorRequestRateChange drvOk stC8Base 7 1 50 100).2.1.pool
      sensorC8 0 0 = 5 ∧
    sensorCalcHwRate (sensorRequest drvOk (sensorRelease drvOk stC8Base 7 1).2.1
      7 1 50 100).2.1.pool sensorC8 0 0 = SENSOR_RATE_OFF ∧
    (5 : Nat) ≠ SENSOR_RATE_OFF ∧
    sensorCalcHwLatency (sensorRequestRateChange drvOk stC8Base 7 1 50 100).2.1.pool
      sensorC8 = 100 ∧
    sensorCalcHwLatency (sensorRequest drvOk (sensorRelease drvOk stC8Base 7 1).2.1
      7 1 50 100).2.1.pool sensorC8 = SENSOR_LATENCY_INVALID ∧
    (100 : Nat) ≠ SENSOR_LATENCY_INVALID := by
  decide

/-- C8 witness: a feasible rate change (5 Hz → 10 Hz) for client 7
agrees with `release; request` in flag and in the aggregated rate. -/
theorem c8_rate_change_equiv_release_request_witness :
    ((sensorRequestRateChange drvOk stC8Base 7 1 10 50).1 =
     (sensorRequest drvOk (sensorRelease drvOk stC8Base 7 1).2.1 7 1 10 50).1) ∧
    sensorCalcHwRate (sensorRequestRateChange drvOk stC8Base 7 1 10 50).2.1.pool
      sensorC8 0 0 =
      sensorCalcHwRate (sensorRequest drvOk (sensorRelease drvOk stC8Base 7 1).2.1
        7 1 10 50).2.1.pool sensorC8 0 0 :=
  have h := (c8_rate_change_equiv_release_request drvOk stC8Base 7 1 10 50 0 sensorC8
    (by decide)).2 ⟨1, 7, 100, 5⟩ (by decide)
  ⟨h.1, (h.2 (by decide)).1⟩

/-- C10 witness: a request for an unknown handle on the fresh state
fails and leaves everything untouched. -/
theorem c10_failed_request_no_effect_witness :
    sensorRequest drvOk (initialSensorsState 2 4) 1 5 25 100 =
      (false, initialSensorsState 2 4, []) :=
  c10_failed_request_no_effect drvOk (initialSensorsState 2 4) 1 5 25 100 (by decide)
